import Mathlib

/-!
# bearchat auth-service: credential and token lifecycle

A shallow embedding of `auth-service/api/jwt.go` and `auth-service/api/api.go`.

* Handlers are state-passing functions over a `ResponseWriter` (with the
  behaviour of `httptest.ResponseRecorder`) and a `World` (table `users`, log,
  mail outbox, the calls made to the signer, and the number of clock readings).
* External libraries (bcrypt, jwt-go HS256 signing, math/rand, uuid, the Mailer
  and the wall clock) are the fields of `Env`.
* Go's `error` is `Option String` (`none` is `nil`).
* A `time.Time` is an instant in nanoseconds since the Unix epoch, a
  `time.Duration` a number of nanoseconds.
-/

namespace BearChat

/-! ## package time -/

/-- Go `time.Time`: an instant, in nanoseconds since the Unix epoch. -/
structure Time where
  unixNano : Int
  deriving DecidableEq, Repr

/-- Go `time.Duration`: a count of nanoseconds. -/
abbrev Duration := Int

/-- Go `time.Second`. -/
def Second : Duration := 1000000000

/-- Go `time.Minute`. -/
def Minute : Duration := 60 * Second

/-- Go `Time.Add`. -/
def Time.Add (t : Time) (d : Duration) : Time := ⟨t.unixNano + d⟩

/-- Go `Time.Unix`: whole seconds since the epoch (rounded down). -/
def Time.Unix (t : Time) : Int := t.unixNano / Second

/-- Go `Time.After`. -/
def Time.After (t u : Time) : Bool := decide (u.unixNano < t.unixNano)

/-- Go `Time.Before`. -/
def Time.Before (t u : Time) : Bool := decide (t.unixNano < u.unixNano)

/-! ## jwt.go -/

/-- Go `error`: `none` is `nil`, `some msg` an error whose `Error()` is `msg`. -/
abbrev GoError := Option String

/-- `DefaultAccessJWTExpiry = 1 * 1440 * time.Minute`. -/
def DefaultAccessJWTExpiry : Duration := 1 * 1440 * Minute

/-- `DefaultRefreshJWTExpiry = 30 * 1440 * time.Minute`. -/
def DefaultRefreshJWTExpiry : Duration := 30 * 1440 * Minute

/-- `defaultJWTIssuer = "CalChat"`. -/
def defaultJWTIssuer : String := "CalChat"

/-- `jwt.StandardClaims` of jwt-go. -/
structure StandardClaims where
  Audience : String := ""
  ExpiresAt : Int := 0
  Id : String := ""
  IssuedAt : Int := 0
  Issuer : String := ""
  NotBefore : Int := 0
  Subject : String := ""
  deriving DecidableEq, Repr

/-- `AuthClaims`: the claims in a session token. -/
structure AuthClaims where
  UserID : String
  StandardClaims : StandardClaims
  deriving DecidableEq, Repr

/-- One call of `token.SignedString(jwtKey)`: the claims signed and what the
signer returned. -/
structure SignCall where
  claims : AuthClaims
  tokenString : String
  err : GoError
  deriving DecidableEq, Repr

/-- A row of table `users`. -/
structure User where
  userId : String
  username : String
  email : String
  hashedPassword : String
  verified : Bool
  verifiedToken : String
  resetToken : String
  deriving DecidableEq, Repr

/-- One call of `Mailer.SendEmail`; `token` is the entry `"Token"` of the data. -/
structure Mail where
  recipient : String
  subject : String
  templatePath : String
  token : String
  deriving DecidableEq, Repr

/-- The collaborators of the handlers. -/
structure Env where
  /-- the k-th reading of `time.Now()` -/
  now : Nat → Time
  /-- math/rand: after `rand.Seed(seed)`, the value whose remainder the i-th
  call of `rand.Intn` returns -/
  rng : Int → Nat → Nat
  /-- `bcrypt.GenerateFromPassword(password, bcrypt.DefaultCost)` -/
  GenerateFromPassword : String → String × GoError
  /-- `bcrypt.CompareHashAndPassword(hashedPassword, password)` -/
  CompareHashAndPassword : String → String → GoError
  /-- `jwt.NewWithClaims(jwt.SigningMethodHS256, claims).SignedString(jwtKey)` -/
  SignedString : AuthClaims → String × GoError
  /-- `m.SendEmail(recipient, subject, templatePath, {"Token": token})` -/
  SendEmail : String → String → String → String → GoError
  /-- the k-th `uuid.New().String()` -/
  NewUUID : Nat → String
  /-- failure of the database driver on the named statement -/
  dbErr : String → GoError
  /-- how far before the clock reading of the call `logout` sets the expiry of
  its cookies, in nanoseconds beyond the first -/
  logoutAge : Nat := 0

/-- What a handler can change besides its response. -/
structure World where
  users : List User := []
  ticks : Nat := 0
  uuids : Nat := 0
  log : List String := []
  outbox : List Mail := []
  signed : List SignCall := []
  deriving DecidableEq, Repr

/-- `time.Now()`: the next reading of the clock. -/
def Now (env : Env) (s : World) : Time × World :=
  (env.now s.ticks, { s with ticks := s.ticks + 1 })

/-- `log.Print(msg)`. -/
def logPrint (msg : String) (s : World) : World :=
  { s with log := s.log ++ [msg] }

/-- `token.SignedString(jwtKey)`, recording the call. -/
def SignedString (env : Env) (claims : AuthClaims) (s : World) :
    (String × GoError) × World :=
  let r := env.SignedString claims
  (r, { s with signed := s.signed ++ [⟨claims, r.1, r.2⟩] })

/-- `setClaims` of jwt.go. -/
def setClaims (env : Env) (claims : AuthClaims) (s : World) :
    (String × GoError) × World :=
  let (r, s1) := SignedString env claims s
  let tokenString := r.1
  let err := r.2
  if err.isSome then
    (("", err), s1)
  else
    ((tokenString, err), s1)

/-- The constant `base62` of `GetRandomBase62`. -/
def base62 : String := "ABCDEFGHIJKLMNOPQRSTUVWXYZabcdefghijklmnopqrstuvwxyz0123456789"

/-- `rand.Intn(n)` as the i-th call after `rand.Seed(seed)`: panics (`none`)
when `n <= 0`, otherwise a value below `n`. -/
def Intn (env : Env) (seed : Int) (i : Nat) (n : Nat) : Option Nat :=
  if n = 0 then none else some (env.rng seed i % n)

/-- The loop `for i := range r { r[i] = base62[rand.Intn(len(base62))] }` from
index `i` on, for `k` more positions; `none` is a runtime panic (an index out of
range, or `Intn` on a non-positive bound). -/
def fillBase62 (env : Env) (seed : Int) : Nat → Nat → Option (List Char)
  | _, 0 => some []
  | i, k + 1 =>
    match Intn env seed i base62.length with
    | none => none
    | some j =>
      match base62.data.get? j with
      | none => none
      | some c =>
        match fillBase62 env seed (i + 1) k with
        | none => none
        | some cs => some (c :: cs)

/-- `GetRandomBase62(length)`: seeds the generator with the clock's Unix second,
then draws `length` characters; `none` is a runtime panic (`make` with a negative
length). -/
def GetRandomBase62 (env : Env) (length : Int) (s : World) : Option String × World :=
  let (t, s1) := Now env s
  let seed := t.Unix
  if length < 0 then
    (none, s1)
  else
    ((fillBase62 env seed 0 length.toNat).map String.mk, s1)

/-- `verifyTokenSize = 6`. -/
def verifyTokenSize : Int := 6

/-- `resetTokenSize = 6`. -/
def resetTokenSize : Int := 6

/-- The symbols A-Z, a-z, 0-9. -/
def isBase62Symbol (c : Char) : Bool :=
  (decide ('A' ≤ c) && decide (c ≤ 'Z')) || (decide ('a' ≤ c) && decide (c ≤ 'z')) ||
    (decide ('0' ≤ c) && decide (c ≤ '9'))

/-! ## net/http -/

/-- `http.StatusOK`. -/
def StatusOK : Nat := 200

/-- `http.StatusCreated`. -/
def StatusCreated : Nat := 201

/-- `http.StatusBadRequest`. -/
def StatusBadRequest : Nat := 400

/-- `http.StatusConflict`. -/
def StatusConflict : Nat := 409

/-- `http.StatusInternalServerError`. -/
def StatusInternalServerError : Nat := 500

/-- `http.SameSite`; `unset` is the zero value of the field. -/
inductive SameSite where
  | unset
  | SameSiteDefaultMode
  | SameSiteLaxMode
  | SameSiteStrictMode
  | SameSiteNoneMode
  deriving DecidableEq, Repr

/-- `http.Cookie`, as the handler hands it to `http.SetCookie`. -/
structure Cookie where
  Name : String
  Value : String
  Path : String := ""
  Expires : Time
  Secure : Bool := false
  HttpOnly : Bool := false
  SameSite : BearChat.SameSite := BearChat.SameSite.unset
  deriving DecidableEq, Repr

/-- `http.Header`: the `Set-Cookie` entries, and the other fields by name. -/
structure Header where
  SetCookie : List Cookie := []
  fields : List (String × String) := []
  deriving DecidableEq, Repr

/-- `Header.Set`. -/
def Header.Set (h : Header) (key value : String) : Header :=
  { h with fields := h.fields.filter (fun kv => kv.1 != key) ++ [(key, value)] }

/-- `http.ResponseWriter`, with the behaviour of `httptest.ResponseRecorder`:
the first `WriteHeader` fixes the status code and the headers that are sent. -/
structure ResponseWriter where
  HeaderMap : Header := {}
  wroteHeader : Bool := false
  Code : Nat := 200
  snapHeader : Option Header := none
  Body : String := ""
  deriving DecidableEq, Repr

/-- `httptest.NewRecorder()`. -/
def NewRecorder : ResponseWriter := {}

/-- `w.WriteHeader(code)`: a second call is ignored. -/
def WriteHeader (w : ResponseWriter) (code : Nat) : ResponseWriter :=
  if w.wroteHeader then w
  else { w with Code := code, wroteHeader := true, snapHeader := some w.HeaderMap }

/-- `w.Write(b)`: writes the header with status 200 first when none was written. -/
def Write (w : ResponseWriter) (b : String) : ResponseWriter :=
  let w1 := if w.wroteHeader then w else WriteHeader w StatusOK
  { w1 with Body := w1.Body ++ b }

/-- `http.Error(w, error, code)`. -/
def Error (w : ResponseWriter) (error : String) (code : Nat) : ResponseWriter :=
  let h := (w.HeaderMap.Set "Content-Type" "text/plain; charset=utf-8").Set
    "X-Content-Type-Options" "nosniff"
  let w1 := WriteHeader { w with HeaderMap := h } code
  Write w1 (error ++ "\n")

/-- The bytes net/http accepts in a cookie name (`isTokenRune`). -/
def isTokenRune (c : Char) : Bool :=
  c.isAlphanum || "!#$%&*+-.^_|~".data.contains c || c == Char.ofNat 39 || c == Char.ofNat 96

/-- `isCookieNameValid`. -/
def isCookieNameValid (raw : String) : Bool :=
  raw != "" && raw.data.all isTokenRune

/-- `http.SetCookie(w, cookie)`: adds the cookie to the headers of `w` when its
name is valid. -/
def SetCookie (w : ResponseWriter) (cookie : Cookie) : ResponseWriter :=
  if isCookieNameValid cookie.Name then
    { w with HeaderMap :=
        { w.HeaderMap with SetCookie := w.HeaderMap.SetCookie ++ [cookie] } }
  else w

/-- What the caller observes: `rr.Result()`, with the cookies as they were set. -/
structure Response where
  StatusCode : Nat
  Cookies : List Cookie
  Body : String
  deriving DecidableEq, Repr

/-- `rr.Result()`. -/
def Result (w : ResponseWriter) : Response :=
  { StatusCode := w.Code
    Cookies := (w.snapHeader.getD w.HeaderMap).SetCookie
    Body := w.Body }

/-! ## api.go -/

/-- Modelled from the spec: the type `Credentials` (fields `Username`, `Email`,
`Password`), whose declaration is not among the sources; the tests build it with
these fields. -/
structure Credentials where
  Username : String
  Email : String
  Password : String
  deriving DecidableEq, Repr

/-- A `*http.Request`: the JSON body decoded into `Credentials` (`none` when
decoding fails), the query parameter `token` (empty when absent), the cookies. -/
structure Request where
  body : Option Credentials := none
  token : String := ""
  cookies : List Cookie := []
  deriving DecidableEq, Repr

/-- `m.SendEmail(...)`, recording the call. -/
def SendEmail (env : Env) (recipient subject templatePath token : String) (s : World) :
    GoError × World :=
  (env.SendEmail recipient subject templatePath token,
    { s with outbox := s.outbox ++ [⟨recipient, subject, templatePath, token⟩] })

/-- Modelled from the spec: the first steps of `signup`, left blank in api.go
(decoding the credentials, then "Reject if username or email already exists ->
Conflict"); a driver failure is `Internal`. Returns the response when the request
is rejected. -/
def signupCheck (env : Env) (w : ResponseWriter) (r : Request) (s : World) :
    Except (ResponseWriter × World) Credentials :=
  match r.body with
  | none => .error (Error w "error decoding credentials" StatusBadRequest, s)
  | some credentials =>
    match env.dbErr "usernameExists" with
    | some e => .error (Error w "error checking username" StatusInternalServerError, logPrint e s)
    | none =>
      if s.users.any (fun u => u.username == credentials.Username) then
        .error (Error w "username already exists" StatusConflict, s)
      else
        match env.dbErr "emailExists" with
        | some e => .error (Error w "error checking email" StatusInternalServerError, logPrint e s)
        | none =>
          if s.users.any (fun u => u.email == credentials.Email) then
            .error (Error w "email already exists" StatusConflict, s)
          else
            .ok credentials

/-- Modelled from the spec: the storage steps of `signup`, left blank in api.go
(a new user UUID, a verification token of `verifyTokenSize` from
`GetRandomBase62`, then "Persist new Account with verified=false"); a storage
failure is `Internal`. Returns the user id, the verification token and the new
world, or the response when storing fails. -/
def signupStore (env : Env) (w : ResponseWriter) (credentials : Credentials)
    (pass : String) (s : World) :
    Except (ResponseWriter × World) (String × String × World) :=
  let userID := env.NewUUID s.uuids
  let s := { s with uuids := s.uuids + 1 }
  match GetRandomBase62 env verifyTokenSize s with
  | (none, s) => .error (w, s)
  | (some verifyToken, s) =>
    match env.dbErr "createAccount" with
    | some e =>
      .error (Error w "error storing credentials" StatusInternalServerError, logPrint e s)
    | none =>
      .ok (userID, verifyToken,
        { s with users := s.users ++
            [⟨userID, credentials.Username, credentials.Email, pass, false, verifyToken, ""⟩] })

/-- `signup(m, DB)` of api.go. The blanks of the source are filled from its
comments: the password hashed is the one of the credentials, the access token is
for the new user id, the mail goes to the email of the credentials. -/
def signup (env : Env) (w : ResponseWriter) (r : Request) (s : World) :
    ResponseWriter × World :=
  match signupCheck env w r s with
  | .error out => out
  | .ok credentials =>
    let (pass, err) := env.GenerateFromPassword credentials.Password
    match err with
    | some e =>
      (Error w "error preparing password for storage" StatusInternalServerError, logPrint e s)
    | none =>
      match signupStore env w credentials pass s with
      | .error out => out
      | .ok (userID, verifyToken, s) =>
        let (now1, s) := Now env s
        let accessExpiresAt := now1.Add DefaultAccessJWTExpiry
        let (now2, s) := Now env s
        let ((accessToken, err), s) := setClaims env
          { UserID := userID
            StandardClaims :=
              { Subject := "access"
                ExpiresAt := accessExpiresAt.Unix
                Issuer := defaultJWTIssuer
                IssuedAt := now2.Unix } } s
        match err with
        | some e =>
          (Error w "error generating access token" StatusInternalServerError, logPrint e s)
        | none =>
          let w := SetCookie w
            { Name := "access_token"
              Value := accessToken
              Expires := accessExpiresAt
              HttpOnly := true
              SameSite := BearChat.SameSite.SameSiteNoneMode
              Path := "/" }
          let (now3, s) := Now env s
          let refreshExpiresAt := now3.Add DefaultRefreshJWTExpiry
          let (now4, s) := Now env s
          let ((refreshToken, err), s) := setClaims env
            { UserID := userID
              StandardClaims :=
                { Subject := "refresh"
                  ExpiresAt := refreshExpiresAt.Unix
                  Issuer := defaultJWTIssuer
                  IssuedAt := now4.Unix } } s
          match err with
          | some e =>
            (Error w "error creating refreshToken" StatusInternalServerError, logPrint e s)
          | none =>
            let w := SetCookie w
              { Name := "refresh_token"
                Value := refreshToken
                Expires := refreshExpiresAt
                Path := "/" }
            let (err, s) := SendEmail env credentials.Email "Email Verification"
              "user-signup.html" verifyToken s
            let (w, s) :=
              match err with
              | some e =>
                (Error w "error sending verification email" StatusInternalServerError,
                  logPrint e s)
              | none => (w, s)
            (WriteHeader w StatusCreated, s)

/-- Modelled from the spec: the first steps of `signin`, left blank in api.go
(decoding the credentials, then "Look up account by email; NotFound/lookup error
-> reject with BadRequest"). Returns the credentials with the stored hash and the
user id of the account, or the response when the request is rejected. -/
def signinLookup (env : Env) (w : ResponseWriter) (r : Request) (s : World) :
    Except (ResponseWriter × World) (Credentials × String × String) :=
  match r.body with
  | none => .error (Error w "error decoding credentials" StatusBadRequest, s)
  | some credentials =>
    match env.dbErr "findByEmail" with
    | some _ => .error (Error w "incorrect credentials" StatusBadRequest, s)
    | none =>
      match s.users.find? (fun u => u.email == credentials.Email) with
      | none => .error (Error w "incorrect credentials" StatusBadRequest, s)
      | some u => .ok (credentials, u.hashedPassword, u.userId)

/-- `signin(DB)` of api.go. The blanks of the source are filled from its
comments: the stored hash is compared with the password of the credentials. -/
def signin (env : Env) (w : ResponseWriter) (r : Request) (s : World) :
    ResponseWriter × World :=
  match signinLookup env w r s with
  | .error out => out
  | .ok (credentials, hashedPassword, userID) =>
    match env.CompareHashAndPassword hashedPassword credentials.Password with
    | some _ => (Error w "incorrect password" StatusBadRequest, s)
    | none =>
      let (now1, s) := Now env s
      let accessExpiresAt := now1.Add DefaultAccessJWTExpiry
      let (now2, s) := Now env s
      let ((accessToken, _), s) := setClaims env
        { UserID := ""
          StandardClaims :=
            { Subject := "access"
              ExpiresAt := accessExpiresAt.Unix
              Issuer := defaultJWTIssuer
              IssuedAt := now2.Unix } } s
      let w := SetCookie w
        { Name := "access_token"
          Value := accessToken
          Expires := accessExpiresAt
          HttpOnly := true
          SameSite := BearChat.SameSite.SameSiteNoneMode
          Path := "/" }
      let (now3, s) := Now env s
      let refreshExpiresAt := now3.Add DefaultRefreshJWTExpiry
      let (now4, s) := Now env s
      let ((refreshToken, err), s) := setClaims env
        { UserID := userID
          StandardClaims :=
            { Subject := "refresh"
              ExpiresAt := refreshExpiresAt.Unix
              Issuer := defaultJWTIssuer
              IssuedAt := now4.Unix } } s
      match err with
      | some e =>
        (Error w "error creating refreshToken" StatusInternalServerError, logPrint e s)
      | none =>
        let w := SetCookie w
          { Name := "refresh_token"
            Value := refreshToken
            Expires := refreshExpiresAt
            Path := "/" }
        (w, s)

/-- Modelled from the spec: the update of `verify`, left blank in api.go
("Atomically locate the account whose verifyToken equals token and set
verified=true. If zero rows affected (token unknown), fail with BadRequest"; the
token is cleared on success); a driver failure is `Internal`. -/
def verifyUpdate (env : Env) (w : ResponseWriter) (token : String) (s : World) :
    ResponseWriter × World :=
  match env.dbErr "setVerified" with
  | some e => (Error w "error verifying account" StatusInternalServerError, logPrint e s)
  | none =>
    let rowsAffected := (s.users.filter (fun u => u.verifiedToken == token)).length
    if rowsAffected = 0 then
      (Error w "invalid token" StatusBadRequest, s)
    else
      (w, { s with users := s.users.map (fun u =>
        if u.verifiedToken == token then { u with verified := true, verifiedToken := "" }
        else u) })

/-- `verify(DB)` of api.go. -/
def verify (env : Env) (w : ResponseWriter) (r : Request) (s : World) :
    ResponseWriter × World :=
  let token := r.token
  if token.utf8ByteSize = 0 then
    (Error w "url param 'token' is missing" StatusInternalServerError,
      logPrint "url param 'token' is missing" s)
  else
    verifyUpdate env w token s

/-- Modelled from the spec: the value of `expiresAt` in `logout`, left blank in
api.go ("an expiry in the past"; the comment of the source asks for "anytime in
the past"): an instant before the clock reading of the call, earlier than it by
`env.logoutAge + 1` nanoseconds. -/
def logoutExpiresAt (env : Env) (s : World) : Time × World :=
  let (now, s1) := Now env s
  (now.Add (-((env.logoutAge : Int) + 1)), s1)

/-- `logout` of api.go. -/
def logout (env : Env) (w : ResponseWriter) (_r : Request) (s : World) :
    ResponseWriter × World :=
  let (expiresAt, s) := logoutExpiresAt env s
  let w := SetCookie w { Name := "access_token", Value := "", Expires := expiresAt }
  let w := SetCookie w { Name := "refresh_token", Value := "", Expires := expiresAt }
  (w, s)

/-- Modelled from the spec: the first steps of `resetPassword`, left blank in
api.go (the token from the query, the credentials from the body, "Reject if
required fields are missing/invalid -> BadRequest", "Confirm (username, token)
pair matches an existing account -> else BadRequest"); a driver failure is
`Internal`. Returns the response when the request is rejected. -/
def resetPasswordCheck (env : Env) (w : ResponseWriter) (r : Request) (s : World) :
    Except (ResponseWriter × World) Credentials :=
  let token := r.token
  match r.body with
  | none => .error (Error w "error decoding credentials" StatusBadRequest, s)
  | some credentials =>
    if token = "" ∨ credentials.Username = "" ∨ credentials.Email = "" ∨
        credentials.Password = "" then
      .error (Error w "invalid input" StatusBadRequest, s)
    else
      match env.dbErr "findByUsernameAndToken" with
      | some e =>
        .error (Error w "error checking reset token" StatusInternalServerError, logPrint e s)
      | none =>
        if s.users.any (fun u => u.username == credentials.Username && u.resetToken == token)
        then .ok credentials
        else .error (Error w "invalid token" StatusBadRequest, s)

/-- Modelled from the spec: the last step of `resetPassword`, left blank in
api.go ("atomically store the new hash and clear resetToken so the token cannot
be reused"); a driver failure is `Internal`. -/
def resetPasswordUpdate (env : Env) (w : ResponseWriter) (credentials : Credentials)
    (hashedPassword : String) (s : World) : ResponseWriter × World :=
  match env.dbErr "updatePasswordAndClearToken" with
  | some e => (Error w "error updating password" StatusInternalServerError, logPrint e s)
  | none =>
    (w, { s with users := s.users.map (fun u =>
      if u.username == credentials.Username then
        { u with hashedPassword := hashedPassword, resetToken := "" }
      else u) })

/-- `resetPassword(DB)` of api.go. The blank of the source is filled from its
comment: the password hashed is the new password of the credentials. -/
def resetPassword (env : Env) (w : ResponseWriter) (r : Request) (s : World) :
    ResponseWriter × World :=
  match resetPasswordCheck env w r s with
  | .error out => out
  | .ok credentials =>
    let (hashedPassword, err) := env.GenerateFromPassword credentials.Password
    match err with
    | some e =>
      (Error w "password preparation failed" StatusInternalServerError, logPrint e s)
    | none => resetPasswordUpdate env w credentials hashedPassword s

/-! ## Sample collaborators -/

/-- A signer that writes the claims out in clear and never fails. -/
def clearSigner (c : AuthClaims) : String × GoError :=
  (c.StandardClaims.Subject ++ "." ++ c.UserID ++ "." ++ toString c.StandardClaims.ExpiresAt
    ++ "." ++ toString c.StandardClaims.IssuedAt, none)

/-- Sample collaborators: the k-th clock reading is `t k`, hashing prepends
`"h:"`, a hash matches the password it was made from, mail and storage succeed. -/
def sampleEnv (t : Nat → Int) : Env where
  now := fun k => ⟨t k⟩
  rng := fun seed i => seed.toNat + i
  GenerateFromPassword := fun p => ("h:" ++ p, none)
  CompareHashAndPassword := fun h p => if h = "h:" ++ p then none else some "mismatch"
  SignedString := clearSigner
  SendEmail := fun _ _ _ _ => none
  NewUUID := fun k => "user-" ++ toString k
  dbErr := fun _ => none

/-- The credentials used by the tests of the repository. -/
def testCreds : Credentials :=
  { Username := "GoldenBear321", Email := "devops@berkeley.edu", Password := "DaddyDenero123" }

/-- A table with the account of `testCreds`. -/
def sampleUsers : List User :=
  [⟨"user-0", "GoldenBear321", "devops@berkeley.edu", "h:DaddyDenero123", false, "AAAAAA", ""⟩]

/-! ## Vocabulary of the statements -/

/-- The claims literal of `signup` and `signin`: a token for `userID` with the
given subject, expiring at `expiresAt` and issued at `issuedAt`. -/
def sessionClaims (userID subject : String) (expiresAt issuedAt : Time) : AuthClaims :=
  { UserID := userID
    StandardClaims :=
      { Subject := subject
        ExpiresAt := expiresAt.Unix
        Issuer := defaultJWTIssuer
        IssuedAt := issuedAt.Unix } }

/-- The claims built from the clock readings `k` (for the expiry) and `k + 1`
(for the issue time). -/
def issuedClaims (env : Env) (userID subject : String) (expiry : Duration) (k : Nat) :
    AuthClaims :=
  sessionClaims userID subject ((env.now k).Add expiry) (env.now (k + 1))

/-- The cookie literal named `access_token` of `signup` and `signin`. -/
def accessCookie (value : String) (expires : Time) : Cookie :=
  { Name := "access_token", Value := value, Expires := expires, HttpOnly := true,
    SameSite := BearChat.SameSite.SameSiteNoneMode, Path := "/" }

/-- The cookie literal named `refresh_token` of `signup` and `signin`. -/
def refreshCookie (value : String) (expires : Time) : Cookie :=
  { Name := "refresh_token", Value := value, Expires := expires, Path := "/" }

/-- The record of signing `c`. -/
def signCall (env : Env) (c : AuthClaims) : SignCall :=
  ⟨c, (env.SignedString c).1, (env.SignedString c).2⟩

/-- The token string `setClaims` returns for `c`. -/
def tokenOf (env : Env) (c : AuthClaims) : String :=
  if (env.SignedString c).2.isSome then "" else (env.SignedString c).1

/-- The signer calls made between world `s` and the later world `s1`. -/
def signedSince (s s1 : World) : List SignCall := s1.signed.drop s.signed.length

/-- The mails handed to the mailer between world `s` and the later world `s1`. -/
def mailedSince (s s1 : World) : List Mail := s1.outbox.drop s.outbox.length

/-- The session-token pair a response delivers: name and value of each cookie. -/
def sessionTokens (resp : Response) : List (String × String) :=
  resp.Cookies.map (fun c => (c.Name, c.Value))

/-- Sample collaborators whose k-th clock reading is k whole seconds. -/
def secondsEnv : Env := sampleEnv fun k => k * 1000000000

/-- The signer fails, when it fails, whatever the claims: `setClaims` signs with
HS256 and the fixed key `jwtKey`, so whether `SignedString` returns an error does
not depend on the claims it is given. -/
def uniformSigner (env : Env) : Prop :=
  ∀ c c1 : AuthClaims, (env.SignedString c).2 = none → (env.SignedString c1).2 = none

/-- Sample collaborators whose signer fails on every token, with the error `e`. -/
def signFailEnv (e : String) : Env :=
  { sampleEnv (fun k => k) with SignedString := fun _ => ("", some e) }

/-- Sample collaborators whose hashing fails with the error `e`. -/
def hashFailEnv (e : String) : Env :=
  { sampleEnv (fun k => k) with GenerateFromPassword := fun _ => ("", some e) }

/-- The handlers that hash, sign or send mail. -/
inductive Handler where
  | signup
  | signin
  | resetPassword
  deriving DecidableEq, Repr

/-- The internal steps of the handlers that can fail. -/
inductive Step where
  | hashing
  | accessSigning
  | refreshSigning
  | mailDispatch
  deriving DecidableEq, Repr

/-- The run of a handler on a fresh response. -/
def Handler.run : Handler → Env → Request → World → ResponseWriter × World
  | .signup, env, r, s => BearChat.signup env NewRecorder r s
  | .signin, env, r, s => BearChat.signin env NewRecorder r s
  | .resetPassword, env, r, s => BearChat.resetPassword env NewRecorder r s

/-- The run of handler `h` from request `r` and world `s` fails at `step` with
the underlying error `e`: all steps before it succeed and the collaborator of the
step returns `e`. In signin the error of signing the access token is not looked
at, so there a failure at `accessSigning` is a run whose refresh signing
succeeds, and a failure at `refreshSigning` is any run whose refresh signing
fails. -/
def failsAt : Handler → Step → Env → Request → World → String → Prop
  | .signup, .hashing, env, r, s, e =>
    ∃ credentials, signupCheck env NewRecorder r s = .ok credentials ∧
      (env.GenerateFromPassword credentials.Password).2 = some e
  | .signup, .accessSigning, env, r, s, e =>
    ∃ credentials userID verifyToken s1,
      signupCheck env NewRecorder r s = .ok credentials ∧
      (env.GenerateFromPassword credentials.Password).2 = none ∧
      signupStore env NewRecorder credentials
        (env.GenerateFromPassword credentials.Password).1 s = .ok (userID, verifyToken, s1) ∧
      (env.SignedString
        (issuedClaims env userID "access" DefaultAccessJWTExpiry (s.ticks + 1))).2 = some e
  | .signup, .refreshSigning, env, r, s, e =>
    ∃ credentials userID verifyToken s1,
      signupCheck env NewRecorder r s = .ok credentials ∧
      (env.GenerateFromPassword credentials.Password).2 = none ∧
      signupStore env NewRecorder credentials
        (env.GenerateFromPassword credentials.Password).1 s = .ok (userID, verifyToken, s1) ∧
      (env.SignedString
        (issuedClaims env userID "access" DefaultAccessJWTExpiry (s.ticks + 1))).2 = none ∧
      (env.SignedString
        (issuedClaims env userID "refresh" DefaultRefreshJWTExpiry (s.ticks + 3))).2 = some e
  | .signup, .mailDispatch, env, r, s, e =>
    ∃ credentials userID verifyToken s1,
      signupCheck env NewRecorder r s = .ok credentials ∧
      (env.GenerateFromPassword credentials.Password).2 = none ∧
      signupStore env NewRecorder credentials
        (env.GenerateFromPassword credentials.Password).1 s = .ok (userID, verifyToken, s1) ∧
      (env.SignedString
        (issuedClaims env userID "access" DefaultAccessJWTExpiry (s.ticks + 1))).2 = none ∧
      (env.SignedString
        (issuedClaims env userID "refresh" DefaultRefreshJWTExpiry (s.ticks + 3))).2 = none ∧
      env.SendEmail credentials.Email "Email Verification" "user-signup.html" verifyToken
        = some e
  | .signin, .accessSigning, env, r, s, e =>
    ∃ credentials hashedPassword userID,
      signinLookup env NewRecorder r s = .ok (credentials, hashedPassword, userID) ∧
      env.CompareHashAndPassword hashedPassword credentials.Password = none ∧
      (env.SignedString
        (issuedClaims env "" "access" DefaultAccessJWTExpiry s.ticks)).2 = some e ∧
      (env.SignedString
        (issuedClaims env userID "refresh" DefaultRefreshJWTExpiry (s.ticks + 2))).2 = none
  | .signin, .refreshSigning, env, r, s, e =>
    ∃ credentials hashedPassword userID,
      signinLookup env NewRecorder r s = .ok (credentials, hashedPassword, userID) ∧
      env.CompareHashAndPassword hashedPassword credentials.Password = none ∧
      (env.SignedString
        (issuedClaims env userID "refresh" DefaultRefreshJWTExpiry (s.ticks + 2))).2 = some e
  | .resetPassword, .hashing, env, r, s, e =>
    ∃ credentials, resetPasswordCheck env NewRecorder r s = .ok credentials ∧
      (env.GenerateFromPassword credentials.Password).2 = some e
  | _, _, _, _, _, _ => False

/-- The status and body with which the run of a handler that fails at a step
answers, whatever the underlying error. -/
def failureResponse : Handler → Step → Nat × String
  | .signup, .hashing =>
    (StatusInternalServerError, "error preparing password for storage\n")
  | .signup, .accessSigning => (StatusInternalServerError, "error generating access token\n")
  | .signup, .refreshSigning => (StatusInternalServerError, "error creating refreshToken\n")
  | .signup, .mailDispatch =>
    (StatusInternalServerError, "error sending verification email\n")
  | .signin, .accessSigning => (StatusOK, "")
  | .signin, .refreshSigning => (StatusInternalServerError, "error creating refreshToken\n")
  | .resetPassword, .hashing => (StatusInternalServerError, "password preparation failed\n")
  | _, _ => (0, "")

/-! # Theorems -/

/-! ## GetRandomBase62 -/

theorem base62_length : base62.length = 62 := by decide

theorem base62_nodup : base62.data.Nodup := by decide

theorem base62_symbols : ∀ c ∈ base62.data, isBase62Symbol c = true := by decide

theorem fillBase62_some (env : Env) (seed : Int) (k : Nat) :
    ∀ i, ∃ cs, fillBase62 env seed i k = some cs ∧ cs.length = k ∧
      ∀ c ∈ cs, c ∈ base62.data := by
  induction k with
  | zero => intro i; exact ⟨[], rfl, rfl, by simp⟩
  | succ k ih =>
    intro i
    obtain ⟨cs, hcs, hlen, hmem⟩ := ih (i + 1)
    have hlt : env.rng seed i % 62 < base62.data.length := by
      have : base62.data.length = 62 := base62_length
      rw [this]; exact Nat.mod_lt _ (by decide)
    have hget : base62.data[env.rng seed i % 62]? =
        some (base62.data[env.rng seed i % 62]) := List.getElem?_eq_getElem hlt
    refine ⟨base62.data[env.rng seed i % 62] :: cs, ?_, ?_, ?_⟩
    · simp only [fillBase62, Intn, base62_length]
      simp [hget, hcs]
    · simp [hlen]
    · intro c hc
      rcases List.mem_cons.mp hc with h | h
      · rw [h]; exact List.getElem_mem _
      · exact hmem c h

/-! ## Response writer -/

theorem Result_Error (w : ResponseWriter) (msg : String) (code : Nat)
    (h : w.wroteHeader = false) :
    Result (Error w msg code) =
      { StatusCode := code, Cookies := w.HeaderMap.SetCookie, Body := w.Body ++ (msg ++ "\n") } := by
  simp [Result, Error, Write, WriteHeader, h, Header.Set]

theorem Error_setCookie (w : ResponseWriter) (msg : String) (code : Nat) :
    (Error w msg code).HeaderMap.SetCookie = w.HeaderMap.SetCookie := by
  unfold Error Write WriteHeader
  by_cases h : w.wroteHeader <;> simp [h, Header.Set]

theorem Error_wroteHeader (w : ResponseWriter) (msg : String) (code : Nat) :
    (Error w msg code).wroteHeader = true := by
  unfold Error Write WriteHeader
  by_cases h : w.wroteHeader <;> simp [h]

theorem SetCookie_access (w : ResponseWriter) (v : String) (e : Time) :
    SetCookie w (accessCookie v e) =
      { w with HeaderMap :=
          { w.HeaderMap with SetCookie := w.HeaderMap.SetCookie ++ [accessCookie v e] } } := by
  have h : isCookieNameValid "access_token" = true := by decide
  simp [SetCookie, accessCookie, h]

theorem SetCookie_refresh (w : ResponseWriter) (v : String) (e : Time) :
    SetCookie w (refreshCookie v e) =
      { w with HeaderMap :=
          { w.HeaderMap with SetCookie := w.HeaderMap.SetCookie ++ [refreshCookie v e] } } := by
  have h : isCookieNameValid "refresh_token" = true := by decide
  simp [SetCookie, refreshCookie, h]

/-! ## setClaims -/

theorem setClaims_eq (env : Env) (c : AuthClaims) (s : World) :
    setClaims env c s =
      ((tokenOf env c, (env.SignedString c).2),
        { s with signed := s.signed ++ [signCall env c] }) := by
  unfold setClaims SignedString tokenOf signCall
  cases h : (env.SignedString c).2 <;> simp [h]

/-! ## signin, step by step -/

theorem signinLookup_error (env : Env) (w : ResponseWriter) (r : Request) (s : World)
    (out : ResponseWriter × World) (h : signinLookup env w r s = .error out) :
    ∃ msg, out = (Error w msg StatusBadRequest, s) := by
  unfold signinLookup at h
  split at h
  · exact ⟨_, (Except.error.inj h).symm⟩
  · split at h
    · exact ⟨_, (Except.error.inj h).symm⟩
    · split at h
      · exact ⟨_, (Except.error.inj h).symm⟩
      · cases h

theorem signin_rejected (env : Env) (w : ResponseWriter) (r : Request) (s : World)
    (out : ResponseWriter × World) (h : signinLookup env w r s = .error out) :
    signin env w r s = out := by
  unfold signin; rw [h]

theorem signin_mismatch (env : Env) (w : ResponseWriter) (r : Request) (s : World)
    (credentials : Credentials) (hashedPassword userID e : String)
    (hlookup : signinLookup env w r s = .ok (credentials, hashedPassword, userID))
    (hcompare : env.CompareHashAndPassword hashedPassword credentials.Password = some e) :
    signin env w r s = (Error w "incorrect password" StatusBadRequest, s) := by
  unfold signin; rw [hlookup]; simp only [hcompare]

theorem signin_issue (env : Env) (w : ResponseWriter) (r : Request) (s : World)
    (credentials : Credentials) (hashedPassword userID : String)
    (hlookup : signinLookup env w r s = .ok (credentials, hashedPassword, userID))
    (hcompare : env.CompareHashAndPassword hashedPassword credentials.Password = none) :
    signin env w r s =
      (let a := issuedClaims env "" "access" DefaultAccessJWTExpiry s.ticks
       let b := issuedClaims env userID "refresh" DefaultRefreshJWTExpiry (s.ticks + 2)
       let w1 := SetCookie w
         (accessCookie (tokenOf env a) ((env.now s.ticks).Add DefaultAccessJWTExpiry))
       let s4 : World :=
         { s with ticks := s.ticks + 4, signed := s.signed ++ [signCall env a, signCall env b] }
       match (env.SignedString b).2 with
       | some e =>
         (Error w1 "error creating refreshToken" StatusInternalServerError,
           { s4 with log := s4.log ++ [e] })
       | none =>
         (SetCookie w1 (refreshCookie (tokenOf env b)
           ((env.now (s.ticks + 2)).Add DefaultRefreshJWTExpiry)), s4)) := by
  unfold signin
  rw [hlookup]
  simp only [hcompare, Now, setClaims_eq, logPrint]
  simp [issuedClaims, sessionClaims, accessCookie, refreshCookie, Nat.add_assoc]

/-! ## signup, step by step -/

theorem GetRandomBase62_some (env : Env) (n : Int) (hn : 0 ≤ n) (s : World) :
    ∃ tok, GetRandomBase62 env n s = (some tok, { s with ticks := s.ticks + 1 }) ∧
      (tok.length : Int) = n ∧ ∀ c ∈ tok.data, c ∈ base62.data := by
  obtain ⟨cs, hcs, hlen, hmem⟩ := fillBase62_some env (env.now s.ticks).Unix n.toNat 0
  refine ⟨String.mk cs, ?_, ?_, hmem⟩
  · simp [GetRandomBase62, Now, not_lt.mpr hn, hcs]
  · simp [String.length, hlen, Int.toNat_of_nonneg hn]

theorem signupCheck_error (env : Env) (w : ResponseWriter) (r : Request) (s : World)
    (out : ResponseWriter × World) (h : signupCheck env w r s = .error out) :
    ∃ msg code s1, out = (Error w msg code, s1) ∧ s1.users = s.users ∧
      s1.signed = s.signed ∧ s1.outbox = s.outbox := by
  unfold signupCheck at h
  split at h
  · exact ⟨_, _, _, (Except.error.inj h).symm, rfl, rfl, rfl⟩
  · split at h
    · exact ⟨_, _, _, (Except.error.inj h).symm, rfl, rfl, rfl⟩
    · split at h
      · exact ⟨_, _, _, (Except.error.inj h).symm, rfl, rfl, rfl⟩
      · split at h
        · exact ⟨_, _, _, (Except.error.inj h).symm, rfl, rfl, rfl⟩
        · split at h
          · exact ⟨_, _, _, (Except.error.inj h).symm, rfl, rfl, rfl⟩
          · cases h

theorem signupStore_error (env : Env) (w : ResponseWriter) (credentials : Credentials)
    (pass : String) (s : World) (out : ResponseWriter × World)
    (h : signupStore env w credentials pass s = .error out) :
    ∃ msg code s1, out = (Error w msg code, s1) ∧ s1.users = s.users ∧
      s1.signed = s.signed ∧ s1.outbox = s.outbox := by
  obtain ⟨tok, htok, -, -⟩ :=
    GetRandomBase62_some env verifyTokenSize (by decide) { s with uuids := s.uuids + 1 }
  unfold signupStore at h
  simp only [htok] at h
  split at h
  · exact ⟨_, _, _, (Except.error.inj h).symm, rfl, rfl, rfl⟩
  · cases h

theorem signupStore_ok (env : Env) (w : ResponseWriter) (credentials : Credentials)
    (pass : String) (s : World) (userID verifyToken : String) (s1 : World)
    (h : signupStore env w credentials pass s = .ok (userID, verifyToken, s1)) :
    userID = env.NewUUID s.uuids ∧
      s1 = { s with
        uuids := s.uuids + 1
        ticks := s.ticks + 1
        users := s.users ++
          [⟨userID, credentials.Username, credentials.Email, pass, false, verifyToken, ""⟩] } := by
  obtain ⟨tok, htok, -, -⟩ :=
    GetRandomBase62_some env verifyTokenSize (by decide) { s with uuids := s.uuids + 1 }
  unfold signupStore at h
  simp only [htok] at h
  split at h
  · cases h
  · simp only [Except.ok.injEq, Prod.mk.injEq] at h
    obtain ⟨h1, h2, h3⟩ := h
    subst h1 h2 h3
    exact ⟨rfl, rfl⟩

theorem signup_rejected (env : Env) (w : ResponseWriter) (r : Request) (s : World)
    (out : ResponseWriter × World) (h : signupCheck env w r s = .error out) :
    signup env w r s = out := by
  unfold signup; rw [h]

theorem signup_hash_failed (env : Env) (w : ResponseWriter) (r : Request) (s : World)
    (credentials : Credentials) (e : String)
    (hcheck : signupCheck env w r s = .ok credentials)
    (hhash : (env.GenerateFromPassword credentials.Password).2 = some e) :
    signup env w r s =
      (Error w "error preparing password for storage" StatusInternalServerError,
        logPrint e s) := by
  unfold signup; rw [hcheck]; simp only [hhash]

theorem signup_store_failed (env : Env) (w : ResponseWriter) (r : Request) (s : World)
    (credentials : Credentials) (out : ResponseWriter × World)
    (hcheck : signupCheck env w r s = .ok credentials)
    (hhash : (env.GenerateFromPassword credentials.Password).2 = none)
    (hstore : signupStore env w credentials (env.GenerateFromPassword credentials.Password).1 s
      = .error out) :
    signup env w r s = out := by
  unfold signup; rw [hcheck]; simp only [hhash, hstore]

theorem signup_issue (env : Env) (w : ResponseWriter) (r : Request) (s : World)
    (credentials : Credentials) (userID verifyToken : String) (s1 : World)
    (hcheck : signupCheck env w r s = .ok credentials)
    (hhash : (env.GenerateFromPassword credentials.Password).2 = none)
    (hstore : signupStore env w credentials (env.GenerateFromPassword credentials.Password).1 s
      = .ok (userID, verifyToken, s1)) :
    signup env w r s =
      (let a := issuedClaims env userID "access" DefaultAccessJWTExpiry s1.ticks
       let b := issuedClaims env userID "refresh" DefaultRefreshJWTExpiry (s1.ticks + 2)
       let w1 := SetCookie w
         (accessCookie (tokenOf env a) ((env.now s1.ticks).Add DefaultAccessJWTExpiry))
       let w2 := SetCookie w1
         (refreshCookie (tokenOf env b) ((env.now (s1.ticks + 2)).Add DefaultRefreshJWTExpiry))
       let s4 : World :=
         { s1 with ticks := s1.ticks + 4, signed := s1.signed ++ [signCall env a, signCall env b] }
       let s5 : World :=
         { s4 with outbox := s4.outbox ++
             [⟨credentials.Email, "Email Verification", "user-signup.html", verifyToken⟩] }
       match (env.SignedString a).2 with
       | some e =>
         (Error w "error generating access token" StatusInternalServerError,
           { s1 with
             ticks := s1.ticks + 2
             signed := s1.signed ++ [signCall env a]
             log := s1.log ++ [e] })
       | none =>
         match (env.SignedString b).2 with
         | some e =>
           (Error w1 "error creating refreshToken" StatusInternalServerError,
             { s4 with log := s4.log ++ [e] })
         | none =>
           match env.SendEmail credentials.Email "Email Verification" "user-signup.html"
               verifyToken with
           | some e =>
             (WriteHeader (Error w2 "error sending verification email"
               StatusInternalServerError) StatusCreated, { s5 with log := s5.log ++ [e] })
           | none => (WriteHeader w2 StatusCreated, s5)) := by
  unfold signup
  rw [hcheck]
  simp only [hhash, hstore, Now, setClaims_eq, logPrint, SendEmail]
  cases h1 : (env.SignedString
      (issuedClaims env userID "access" DefaultAccessJWTExpiry s1.ticks)).2 <;>
    simp only [issuedClaims, sessionClaims] at h1 <;>
    simp [issuedClaims, sessionClaims, accessCookie, refreshCookie, Nat.add_assoc, h1]
  cases h2 : (env.SignedString
      (issuedClaims env userID "refresh" DefaultRefreshJWTExpiry (s1.ticks + 2))).2 <;>
    simp only [issuedClaims, sessionClaims] at h2 <;>
    simp [h2]
  cases h3 : env.SendEmail credentials.Email "Email Verification" "user-signup.html"
      verifyToken <;> simp

/-! ## The runs of signin and signup, case by case -/

theorem signin_outcome (env : Env) (w : ResponseWriter) (r : Request) (s : World) :
    (∃ msg, signin env w r s = (Error w msg StatusBadRequest, s)) ∨
    ∃ credentials hashedPassword userID,
      signinLookup env w r s = .ok (credentials, hashedPassword, userID) ∧
      env.CompareHashAndPassword hashedPassword credentials.Password = none := by
  cases hl : signinLookup env w r s with
  | error out =>
    obtain ⟨msg, hmsg⟩ := signinLookup_error env w r s out hl
    exact Or.inl ⟨msg, by rw [signin_rejected env w r s out hl, hmsg]⟩
  | ok v =>
    obtain ⟨credentials, hashedPassword, userID⟩ := v
    cases hc : env.CompareHashAndPassword hashedPassword credentials.Password with
    | none => exact Or.inr ⟨credentials, hashedPassword, userID, rfl, hc⟩
    | some e => exact Or.inl ⟨_, signin_mismatch env w r s _ _ _ e hl hc⟩

theorem signup_outcome (env : Env) (w : ResponseWriter) (r : Request) (s : World) :
    (∃ msg code s1, signup env w r s = (Error w msg code, s1) ∧ s1.users = s.users ∧
      s1.signed = s.signed ∧ s1.outbox = s.outbox) ∨
    ∃ credentials userID verifyToken s1,
      signupCheck env w r s = .ok credentials ∧
      (env.GenerateFromPassword credentials.Password).2 = none ∧
      signupStore env w credentials (env.GenerateFromPassword credentials.Password).1 s
        = .ok (userID, verifyToken, s1) := by
  cases hcheck : signupCheck env w r s with
  | error out =>
    left
    rw [signup_rejected env w r s out hcheck]
    exact signupCheck_error env w r s out hcheck
  | ok credentials =>
    cases hhash : (env.GenerateFromPassword credentials.Password).2 with
    | some e =>
      left
      rw [signup_hash_failed env w r s credentials e hcheck hhash]
      exact ⟨_, _, _, rfl, rfl, rfl, rfl⟩
    | none =>
      cases hstore : signupStore env w credentials
          (env.GenerateFromPassword credentials.Password).1 s with
      | error out =>
        left
        rw [signup_store_failed env w r s credentials out hcheck hhash hstore]
        exact signupStore_error env w credentials _ s out hstore
      | ok v =>
        obtain ⟨userID, verifyToken, s1⟩ := v
        exact Or.inr ⟨credentials, userID, verifyToken, s1, rfl, hhash, hstore⟩

/-- A run of signin on a fresh response that finds the account and a matching
password: two tokens are signed from four clock readings, the access cookie is
set, and the refresh cookie is set unless signing the refresh token failed. -/
theorem signin_issue_run (env : Env) (r : Request) (s : World)
    (credentials : Credentials) (hashedPassword userID : String)
    (hl : signinLookup env NewRecorder r s = .ok (credentials, hashedPassword, userID))
    (hc : env.CompareHashAndPassword hashedPassword credentials.Password = none) :
    (signin env NewRecorder r s).2.signed = s.signed ++
        [signCall env (issuedClaims env "" "access" DefaultAccessJWTExpiry s.ticks),
         signCall env (issuedClaims env userID "refresh" DefaultRefreshJWTExpiry (s.ticks + 2))] ∧
      (signin env NewRecorder r s).2.users = s.users ∧
      (signin env NewRecorder r s).2.outbox = s.outbox ∧
      (signin env NewRecorder r s).2.ticks = s.ticks + 4 ∧
      ((∃ e, (env.SignedString (issuedClaims env userID "refresh" DefaultRefreshJWTExpiry (s.ticks + 2))).2 = some e ∧
          (signin env NewRecorder r s).1.HeaderMap.SetCookie =
            [accessCookie (tokenOf env (issuedClaims env "" "access" DefaultAccessJWTExpiry s.ticks))
              ((env.now s.ticks).Add DefaultAccessJWTExpiry)] ∧
          Result (signin env NewRecorder r s).1 =
            ⟨StatusInternalServerError,
            [accessCookie (tokenOf env (issuedClaims env "" "access" DefaultAccessJWTExpiry s.ticks))
              ((env.now s.ticks).Add DefaultAccessJWTExpiry)],
            "error creating refreshToken\n"⟩) ∨
       ((env.SignedString (issuedClaims env userID "refresh" DefaultRefreshJWTExpiry (s.ticks + 2))).2 = none ∧
          (signin env NewRecorder r s).1.HeaderMap.SetCookie =
            [accessCookie (tokenOf env (issuedClaims env "" "access" DefaultAccessJWTExpiry s.ticks))
              ((env.now s.ticks).Add DefaultAccessJWTExpiry),
            refreshCookie (tokenOf env (issuedClaims env userID "refresh" DefaultRefreshJWTExpiry (s.ticks + 2)))
              ((env.now (s.ticks + 2)).Add DefaultRefreshJWTExpiry)] ∧
          Result (signin env NewRecorder r s).1 =
            ⟨StatusOK,
            [accessCookie (tokenOf env (issuedClaims env "" "access" DefaultAccessJWTExpiry s.ticks))
              ((env.now s.ticks).Add DefaultAccessJWTExpiry),
            refreshCookie (tokenOf env (issuedClaims env userID "refresh" DefaultRefreshJWTExpiry (s.ticks + 2)))
              ((env.now (s.ticks + 2)).Add DefaultRefreshJWTExpiry)],
            ""⟩)) := by
  rw [signin_issue env NewRecorder r s credentials hashedPassword userID hl hc]
  cases hb : (env.SignedString (issuedClaims env userID "refresh" DefaultRefreshJWTExpiry (s.ticks + 2))).2 with
  | some e =>
    simp [hb, Error_setCookie, Result_Error, SetCookie_access, NewRecorder]
  | none =>
    simp [hb, SetCookie_access, SetCookie_refresh, NewRecorder, Result, StatusOK]

/-- Every run of signin on a fresh response: either the request is rejected with
status 400 and nothing changes, or it is a run as in `signin_issue_run`. -/
theorem signin_run (env : Env) (r : Request) (s : World) :
    (∃ msg, signin env NewRecorder r s = (Error NewRecorder msg StatusBadRequest, s)) ∨
    ∃ credentials hashedPassword userID,
      signinLookup env NewRecorder r s = .ok (credentials, hashedPassword, userID) ∧
      env.CompareHashAndPassword hashedPassword credentials.Password = none ∧
      (signin env NewRecorder r s).2.signed = s.signed ++
        [signCall env (issuedClaims env "" "access" DefaultAccessJWTExpiry s.ticks),
         signCall env (issuedClaims env userID "refresh" DefaultRefreshJWTExpiry (s.ticks + 2))] ∧
      (signin env NewRecorder r s).2.users = s.users ∧
      (signin env NewRecorder r s).2.outbox = s.outbox ∧
      (signin env NewRecorder r s).2.ticks = s.ticks + 4 ∧
      ((∃ e, (env.SignedString (issuedClaims env userID "refresh" DefaultRefreshJWTExpiry (s.ticks + 2))).2 = some e ∧
          (signin env NewRecorder r s).1.HeaderMap.SetCookie =
            [accessCookie (tokenOf env (issuedClaims env "" "access" DefaultAccessJWTExpiry s.ticks))
              ((env.now s.ticks).Add DefaultAccessJWTExpiry)] ∧
          Result (signin env NewRecorder r s).1 =
            ⟨StatusInternalServerError,
            [accessCookie (tokenOf env (issuedClaims env "" "access" DefaultAccessJWTExpiry s.ticks))
              ((env.now s.ticks).Add DefaultAccessJWTExpiry)],
            "error creating refreshToken\n"⟩) ∨
       ((env.SignedString (issuedClaims env userID "refresh" DefaultRefreshJWTExpiry (s.ticks + 2))).2 = none ∧
          (signin env NewRecorder r s).1.HeaderMap.SetCookie =
            [accessCookie (tokenOf env (issuedClaims env "" "access" DefaultAccessJWTExpiry s.ticks))
              ((env.now s.ticks).Add DefaultAccessJWTExpiry),
            refreshCookie (tokenOf env (issuedClaims env userID "refresh" DefaultRefreshJWTExpiry (s.ticks + 2)))
              ((env.now (s.ticks + 2)).Add DefaultRefreshJWTExpiry)] ∧
          Result (signin env NewRecorder r s).1 =
            ⟨StatusOK,
            [accessCookie (tokenOf env (issuedClaims env "" "access" DefaultAccessJWTExpiry s.ticks))
              ((env.now s.ticks).Add DefaultAccessJWTExpiry),
            refreshCookie (tokenOf env (issuedClaims env userID "refresh" DefaultRefreshJWTExpiry (s.ticks + 2)))
              ((env.now (s.ticks + 2)).Add DefaultRefreshJWTExpiry)],
            ""⟩)) := by
  rcases signin_outcome env NewRecorder r s with h | ⟨credentials, hashedPassword, userID, hl, hc⟩
  · exact Or.inl h
  · exact Or.inr ⟨credentials, hashedPassword, userID, hl, hc,
      signin_issue_run env r s credentials hashedPassword userID hl hc⟩

/-- A run of signup on a fresh response that passes the checks, hashes the
password and stores the account: the account stays stored, and the run ends at
the first failing step among signing the access token, signing the refresh token
and sending the mail, or at status 201. -/
theorem signup_stored_run (env : Env) (r : Request) (s : World)
    (credentials : Credentials) (userID verifyToken : String) (s1 : World)
    (h1 : signupCheck env NewRecorder r s = .ok credentials)
    (h2 : (env.GenerateFromPassword credentials.Password).2 = none)
    (h3 : signupStore env NewRecorder credentials
      (env.GenerateFromPassword credentials.Password).1 s = .ok (userID, verifyToken, s1)) :
    (signup env NewRecorder r s).2.users = s.users ++
        [(⟨userID, credentials.Username, credentials.Email,
          (env.GenerateFromPassword credentials.Password).1, false, verifyToken, ""⟩ : User)] ∧
      ((∃ e, (env.SignedString (issuedClaims env userID "access" DefaultAccessJWTExpiry (s.ticks + 1))).2 = some e ∧
          (signup env NewRecorder r s).2.signed = s.signed ++
            [signCall env (issuedClaims env userID "access" DefaultAccessJWTExpiry (s.ticks + 1))] ∧
          (signup env NewRecorder r s).2.outbox = s.outbox ∧
          (signup env NewRecorder r s).1.HeaderMap.SetCookie = [] ∧
          Result (signup env NewRecorder r s).1 =
            ⟨StatusInternalServerError, [], "error generating access token\n"⟩) ∨
       ((env.SignedString (issuedClaims env userID "access" DefaultAccessJWTExpiry (s.ticks + 1))).2 = none ∧
          (signup env NewRecorder r s).2.signed = s.signed ++
            [signCall env (issuedClaims env userID "access" DefaultAccessJWTExpiry (s.ticks + 1)),
             signCall env (issuedClaims env userID "refresh" DefaultRefreshJWTExpiry (s.ticks + 3))] ∧
          ((∃ e, (env.SignedString (issuedClaims env userID "refresh" DefaultRefreshJWTExpiry (s.ticks + 3))).2 = some e ∧
              (signup env NewRecorder r s).2.outbox = s.outbox ∧
              (signup env NewRecorder r s).1.HeaderMap.SetCookie =
                [accessCookie (tokenOf env (issuedClaims env userID "access" DefaultAccessJWTExpiry (s.ticks + 1)))
              ((env.now (s.ticks + 1)).Add DefaultAccessJWTExpiry)] ∧
              Result (signup env NewRecorder r s).1 =
                ⟨StatusInternalServerError,
                [accessCookie (tokenOf env (issuedClaims env userID "access" DefaultAccessJWTExpiry (s.ticks + 1)))
              ((env.now (s.ticks + 1)).Add DefaultAccessJWTExpiry)],
                "error creating refreshToken\n"⟩) ∨
           ((env.SignedString (issuedClaims env userID "refresh" DefaultRefreshJWTExpiry (s.ticks + 3))).2 = none ∧
              (signup env NewRecorder r s).2.outbox = s.outbox ++
                [(⟨credentials.Email, "Email Verification", "user-signup.html", verifyToken⟩ : Mail)] ∧
              (signup env NewRecorder r s).1.HeaderMap.SetCookie =
                [accessCookie (tokenOf env (issuedClaims env userID "access" DefaultAccessJWTExpiry (s.ticks + 1)))
              ((env.now (s.ticks + 1)).Add DefaultAccessJWTExpiry),
                refreshCookie (tokenOf env (issuedClaims env userID "refresh" DefaultRefreshJWTExpiry (s.ticks + 3)))
              ((env.now (s.ticks + 3)).Add DefaultRefreshJWTExpiry)] ∧
              ((∃ e, env.SendEmail credentials.Email "Email Verification" "user-signup.html"
                    verifyToken = some e ∧
                  Result (signup env NewRecorder r s).1 =
                    ⟨StatusInternalServerError,
                    [accessCookie (tokenOf env (issuedClaims env userID "access" DefaultAccessJWTExpiry (s.ticks + 1)))
              ((env.now (s.ticks + 1)).Add DefaultAccessJWTExpiry),
                    refreshCookie (tokenOf env (issuedClaims env userID "refresh" DefaultRefreshJWTExpiry (s.ticks + 3)))
              ((env.now (s.ticks + 3)).Add DefaultRefreshJWTExpiry)],
                    "error sending verification email\n"⟩) ∨
               (env.SendEmail credentials.Email "Email Verification" "user-signup.html"
                    verifyToken = none ∧
                  Result (signup env NewRecorder r s).1 =
                    ⟨StatusCreated,
                    [accessCookie (tokenOf env (issuedClaims env userID "access" DefaultAccessJWTExpiry (s.ticks + 1)))
              ((env.now (s.ticks + 1)).Add DefaultAccessJWTExpiry),
                    refreshCookie (tokenOf env (issuedClaims env userID "refresh" DefaultRefreshJWTExpiry (s.ticks + 3)))
              ((env.now (s.ticks + 3)).Add DefaultRefreshJWTExpiry)],
                    ""⟩)))))) := by
  obtain ⟨-, hs1⟩ := signupStore_ok env NewRecorder credentials _ s userID verifyToken s1 h3
  rw [signup_issue env NewRecorder r s credentials userID verifyToken s1 h1 h2 h3]
  subst hs1
  cases ha : (env.SignedString (issuedClaims env userID "access" DefaultAccessJWTExpiry (s.ticks + 1))).2 with
  | some e =>
    simp [ha, Error_setCookie, Result_Error, NewRecorder]
  | none =>
    cases hb : (env.SignedString (issuedClaims env userID "refresh" DefaultRefreshJWTExpiry (s.ticks + 3))).2 with
    | some e =>
      simp [ha, hb, Error_setCookie, Result_Error, SetCookie_access, NewRecorder,
        Nat.add_assoc]
    | none =>
      cases hm : env.SendEmail credentials.Email "Email Verification" "user-signup.html"
          verifyToken with
      | some e =>
        simp [ha, hb, hm, Error_setCookie, Result_Error, SetCookie_access,
          SetCookie_refresh, NewRecorder, Nat.add_assoc, WriteHeader, Error_wroteHeader]
      | none =>
        simp [ha, hb, hm, SetCookie_access, SetCookie_refresh, NewRecorder, Nat.add_assoc,
          WriteHeader, Result]

/-- Every run of signup on a fresh response: either it is rejected before the
account is stored (no account, no token, no mail), or it is a run as in
`signup_stored_run`. -/
theorem signup_run (env : Env) (r : Request) (s : World) :
    (∃ msg code s1, signup env NewRecorder r s = (Error NewRecorder msg code, s1) ∧
      s1.users = s.users ∧ s1.signed = s.signed ∧ s1.outbox = s.outbox) ∨
    ∃ credentials userID verifyToken s1,
      signupCheck env NewRecorder r s = .ok credentials ∧
      (env.GenerateFromPassword credentials.Password).2 = none ∧
      signupStore env NewRecorder credentials
        (env.GenerateFromPassword credentials.Password).1 s = .ok (userID, verifyToken, s1) ∧
      (signup env NewRecorder r s).2.users = s.users ++
        [(⟨userID, credentials.Username, credentials.Email,
          (env.GenerateFromPassword credentials.Password).1, false, verifyToken, ""⟩ : User)] ∧
      ((∃ e, (env.SignedString (issuedClaims env userID "access" DefaultAccessJWTExpiry (s.ticks + 1))).2 = some e ∧
          (signup env NewRecorder r s).2.signed = s.signed ++
            [signCall env (issuedClaims env userID "access" DefaultAccessJWTExpiry (s.ticks + 1))] ∧
          (signup env NewRecorder r s).2.outbox = s.outbox ∧
          (signup env NewRecorder r s).1.HeaderMap.SetCookie = [] ∧
          Result (signup env NewRecorder r s).1 =
            ⟨StatusInternalServerError, [], "error generating access token\n"⟩) ∨
       ((env.SignedString (issuedClaims env userID "access" DefaultAccessJWTExpiry (s.ticks + 1))).2 = none ∧
          (signup env NewRecorder r s).2.signed = s.signed ++
            [signCall env (issuedClaims env userID "access" DefaultAccessJWTExpiry (s.ticks + 1)),
             signCall env (issuedClaims env userID "refresh" DefaultRefreshJWTExpiry (s.ticks + 3))] ∧
          ((∃ e, (env.SignedString (issuedClaims env userID "refresh" DefaultRefreshJWTExpiry (s.ticks + 3))).2 = some e ∧
              (signup env NewRecorder r s).2.outbox = s.outbox ∧
              (signup env NewRecorder r s).1.HeaderMap.SetCookie =
                [accessCookie (tokenOf env (issuedClaims env userID "access" DefaultAccessJWTExpiry (s.ticks + 1)))
              ((env.now (s.ticks + 1)).Add DefaultAccessJWTExpiry)] ∧
              Result (signup env NewRecorder r s).1 =
                ⟨StatusInternalServerError,
                [accessCookie (tokenOf env (issuedClaims env userID "access" DefaultAccessJWTExpiry (s.ticks + 1)))
              ((env.now (s.ticks + 1)).Add DefaultAccessJWTExpiry)],
                "error creating refreshToken\n"⟩) ∨
           ((env.SignedString (issuedClaims env userID "refresh" DefaultRefreshJWTExpiry (s.ticks + 3))).2 = none ∧
              (signup env NewRecorder r s).2.outbox = s.outbox ++
                [(⟨credentials.Email, "Email Verification", "user-signup.html", verifyToken⟩ : Mail)] ∧
              (signup env NewRecorder r s).1.HeaderMap.SetCookie =
                [accessCookie (tokenOf env (issuedClaims env userID "access" DefaultAccessJWTExpiry (s.ticks + 1)))
              ((env.now (s.ticks + 1)).Add DefaultAccessJWTExpiry),
                refreshCookie (tokenOf env (issuedClaims env userID "refresh" DefaultRefreshJWTExpiry (s.ticks + 3)))
              ((env.now (s.ticks + 3)).Add DefaultRefreshJWTExpiry)] ∧
              ((∃ e, env.SendEmail credentials.Email "Email Verification" "user-signup.html"
                    verifyToken = some e ∧
                  Result (signup env NewRecorder r s).1 =
                    ⟨StatusInternalServerError,
                    [accessCookie (tokenOf env (issuedClaims env userID "access" DefaultAccessJWTExpiry (s.ticks + 1)))
              ((env.now (s.ticks + 1)).Add DefaultAccessJWTExpiry),
                    refreshCookie (tokenOf env (issuedClaims env userID "refresh" DefaultRefreshJWTExpiry (s.ticks + 3)))
              ((env.now (s.ticks + 3)).Add DefaultRefreshJWTExpiry)],
                    "error sending verification email\n"⟩) ∨
               (env.SendEmail credentials.Email "Email Verification" "user-signup.html"
                    verifyToken = none ∧
                  Result (signup env NewRecorder r s).1 =
                    ⟨StatusCreated,
                    [accessCookie (tokenOf env (issuedClaims env userID "access" DefaultAccessJWTExpiry (s.ticks + 1)))
              ((env.now (s.ticks + 1)).Add DefaultAccessJWTExpiry),
                    refreshCookie (tokenOf env (issuedClaims env userID "refresh" DefaultRefreshJWTExpiry (s.ticks + 3)))
              ((env.now (s.ticks + 3)).Add DefaultRefreshJWTExpiry)],
                    ""⟩)))))) := by
  rcases signup_outcome env NewRecorder r s with
    h | ⟨credentials, userID, verifyToken, s1, h1, h2, h3⟩
  · exact Or.inl h
  · exact Or.inr ⟨credentials, userID, verifyToken, s1, h1, h2, h3,
      signup_stored_run env r s credentials userID verifyToken s1 h1 h2 h3⟩

/-! ## The claims -/

/-- C1. The claim fails on the code: a successful signin for the account with id
`"user-0"` (account found, password matching, both signings without error, status
200, both cookies set) signs the access token with an empty `UserID`; only the
refresh token carries the account id. -/
theorem signin_access_token_UserID_is_empty :
    signinLookup (sampleEnv fun k => k) NewRecorder { body := some testCreds }
        { users := sampleUsers } = .ok (testCreds, "h:DaddyDenero123", "user-0") ∧
      (sampleEnv fun k => k).CompareHashAndPassword "h:DaddyDenero123" testCreds.Password
        = none ∧
      (Result (signin (sampleEnv fun k => k) NewRecorder { body := some testCreds }
        { users := sampleUsers }).1).StatusCode = StatusOK ∧
      (Result (signin (sampleEnv fun k => k) NewRecorder { body := some testCreds }
        { users := sampleUsers }).1).Cookies.map (fun c => c.Name)
        = ["access_token", "refresh_token"] ∧
      (signin (sampleEnv fun k => k) NewRecorder { body := some testCreds }
        { users := sampleUsers }).2.signed.map
          (fun c => (c.claims.StandardClaims.Subject, c.claims.UserID, c.err))
        = [("access", "", none), ("refresh", "user-0", none)] := by
  refine ⟨rfl, rfl, ?_, ?_, ?_⟩ <;> decide

/-- C2, the claim as stated fails: a request without the parameter `token` is
answered with status 500, not 400. -/
theorem verify_missing_token_not_BadRequest :
    ¬ (Result (verify (sampleEnv fun k => k) NewRecorder { token := "" }
        { users := sampleUsers }).1).StatusCode = StatusBadRequest := by
  decide

/-- C2, amended: for every request whose `token` query parameter is missing or
empty, verify answers with status InternalServerError (500) and the fixed body
"url param 'token' is missing", sets no cookie, and leaves every account as it
was. -/
theorem verify_missing_token (env : Env) (r : Request) (s : World) (h : r.token = "") :
    (Result (verify env NewRecorder r s).1).StatusCode = StatusInternalServerError ∧
      (Result (verify env NewRecorder r s).1).Body = "url param 'token' is missing\n" ∧
      (Result (verify env NewRecorder r s).1).Cookies = [] ∧
      (verify env NewRecorder r s).2.users = s.users := by
  have h0 : ("" : String).utf8ByteSize = 0 := by decide
  simp only [verify, h, h0, if_true]
  rw [Result_Error _ _ _ rfl]
  simp [NewRecorder, logPrint]

theorem verify_missing_token_witness :
    (Result (verify (sampleEnv fun k => k) NewRecorder { token := "" }
        { users := sampleUsers }).1).StatusCode = StatusInternalServerError ∧
      (Result (verify (sampleEnv fun k => k) NewRecorder { token := "" }
        { users := sampleUsers }).1).Body = "url param 'token' is missing\n" ∧
      (Result (verify (sampleEnv fun k => k) NewRecorder { token := "" }
        { users := sampleUsers }).1).Cookies = [] ∧
      (verify (sampleEnv fun k => k) NewRecorder { token := "" }
        { users := sampleUsers }).2.users = sampleUsers :=
  verify_missing_token (sampleEnv fun k => k) { token := "" } { users := sampleUsers } rfl

/-- C3, the claim as stated fails: after a successful signin the cookie named
`refresh_token` is set without the HTTP-only flag. -/
theorem signin_refresh_cookie_not_httpOnly :
    ¬ ∀ c ∈ (signin (sampleEnv fun k => k) NewRecorder { body := some testCreds }
        { users := sampleUsers }).1.HeaderMap.SetCookie,
      c.Path = "/" ∧ c.HttpOnly = true := by
  decide

/-- C3, amended: every session cookie set by signup and by signin (in the headers
of the writer and in the response sent) has path "/"; the one named
`access_token` has the HTTP-only flag set, the one named `refresh_token` is set
without it. -/
theorem session_cookie_path_and_httpOnly (env : Env) (r : Request) (s : World) :
    (∀ c, (c ∈ (signup env NewRecorder r s).1.HeaderMap.SetCookie ∨
          c ∈ (Result (signup env NewRecorder r s).1).Cookies) →
        c.Path = "/" ∧ ((c.Name = "access_token" ∧ c.HttpOnly = true) ∨
          (c.Name = "refresh_token" ∧ c.HttpOnly = false))) ∧
    (∀ c, (c ∈ (signin env NewRecorder r s).1.HeaderMap.SetCookie ∨
          c ∈ (Result (signin env NewRecorder r s).1).Cookies) →
        c.Path = "/" ∧ ((c.Name = "access_token" ∧ c.HttpOnly = true) ∨
          (c.Name = "refresh_token" ∧ c.HttpOnly = false))) := by
  constructor
  · intro c hc
    rcases signup_run env r s with ⟨msg, code, s1, h, -⟩ | ⟨cr, uid, vt, s1, -, -, -, -, h⟩
    · rw [h] at hc
      simp [Error_setCookie, Result_Error, NewRecorder] at hc
    · rcases h with ⟨e, -, -, -, h1, h2⟩ | ⟨-, -, h⟩
      · rw [h1, h2] at hc
        simp at hc
      · rcases h with ⟨e, -, -, h1, h2⟩ | ⟨-, -, h1, h⟩
        · rw [h1, h2] at hc
          simp at hc
          subst hc
          simp [accessCookie]
        · have h2 : (Result (signup env NewRecorder r s).1).Cookies =
              (signup env NewRecorder r s).1.HeaderMap.SetCookie := by
            rcases h with ⟨e, -, h⟩ | ⟨-, h⟩ <;> rw [h, h1]
          rw [h2, h1] at hc
          simp at hc
          rcases hc with hc | hc <;> subst hc <;> simp [accessCookie, refreshCookie]
  · intro c hc
    rcases signin_run env r s with ⟨msg, h⟩ | ⟨cr, hp, uid, -, -, -, -, -, -, h⟩
    · rw [h] at hc
      simp [Error_setCookie, Result_Error, NewRecorder] at hc
    · rcases h with ⟨e, -, h1, h2⟩ | ⟨-, h1, h2⟩
      · rw [h1, h2] at hc
        simp at hc
        subst hc
        simp [accessCookie]
      · rw [h1, h2] at hc
        simp at hc
        rcases hc with hc | hc <;> subst hc <;> simp [accessCookie, refreshCookie]

theorem base62_ascii : ∀ c ∈ base62.data, c.utf8Size = 1 := by decide

theorem utf8ByteSize_base62 (cs : List Char) (h : ∀ c ∈ cs, c ∈ base62.data) :
    (String.mk cs).utf8ByteSize = (String.mk cs).length := by
  induction cs with
  | nil => rfl
  | cons c cs ih =>
    have hc : c.utf8Size = 1 := base62_ascii c (h c (List.mem_cons_self _ _))
    have ih1 := ih (fun d hd => h d (List.mem_cons_of_mem _ hd))
    simp only [String.utf8ByteSize, String.utf8ByteSize.go, String.length, List.length_cons] at ih1 ⊢
    rw [ih1, hc]

/-- C4. For every length n >= 0, every clock and every outcome of the random
source, `GetRandomBase62(n)` returns (without panic) a string of exactly n
characters, each of them a symbol of `base62`; `base62` consists of 62 distinct
symbols, each in A-Z, a-z or 0-9; and a token generated with `verifyTokenSize` or
`resetTokenSize` has exactly 6 characters. -/
theorem GetRandomBase62_length_and_alphabet (env : Env) (s : World) (n : Int) (hn : 0 ≤ n) :
    (∃ tok, (GetRandomBase62 env n s).1 = some tok ∧ (tok.length : Int) = n ∧
      (tok.utf8ByteSize : Int) = n ∧
      ∀ c ∈ tok.data, c ∈ base62.data ∧ isBase62Symbol c = true) ∧
    base62.length = 62 ∧ base62.data.Nodup ∧
    (∀ c ∈ base62.data, isBase62Symbol c = true) ∧
    (∃ tok, (GetRandomBase62 env verifyTokenSize s).1 = some tok ∧ tok.length = 6) ∧
    (∃ tok, (GetRandomBase62 env resetTokenSize s).1 = some tok ∧ tok.length = 6) := by
  refine ⟨?_, base62_length, base62_nodup, base62_symbols, ?_, ?_⟩
  · obtain ⟨tok, h1, h2, h3⟩ := GetRandomBase62_some env n hn s
    refine ⟨tok, by rw [h1], h2, ?_, fun c hc => ⟨h3 c hc, base62_symbols c (h3 c hc)⟩⟩
    rw [← h2]
    exact congrArg Nat.cast (utf8ByteSize_base62 tok.data h3)
  · obtain ⟨tok, h1, h2, -⟩ := GetRandomBase62_some env verifyTokenSize (by decide) s
    exact ⟨tok, by rw [h1], by rw [verifyTokenSize] at h2; exact_mod_cast h2⟩
  · obtain ⟨tok, h1, h2, -⟩ := GetRandomBase62_some env resetTokenSize (by decide) s
    exact ⟨tok, by rw [h1], by rw [resetTokenSize] at h2; exact_mod_cast h2⟩

theorem GetRandomBase62_length_and_alphabet_witness :
    (0 : Int) ≤ 6 ∧
    (∃ tok, (GetRandomBase62 (sampleEnv fun k => k) 6 {}).1 = some tok ∧
      (tok.length : Int) = 6 ∧ (tok.utf8ByteSize : Int) = 6 ∧
      ∀ c ∈ tok.data, c ∈ base62.data ∧ isBase62Symbol c = true) :=
  ⟨by decide,
    (GetRandomBase62_length_and_alphabet (sampleEnv fun k => k) {} 6 (by decide)).1⟩

/-! ## Expiry of the session tokens -/

theorem signedSince_append (s s1 : World) (l : List SignCall)
    (h : s1.signed = s.signed ++ l) : signedSince s s1 = l := by
  simp [signedSince, h]

theorem mailedSince_append (s s1 : World) (l : List Mail)
    (h : s1.outbox = s.outbox ++ l) : mailedSince s s1 = l := by
  simp [mailedSince, h]

theorem Add_access_unixNano (t : Time) :
    (t.Add DefaultAccessJWTExpiry).unixNano = t.unixNano + 86400 * 1000000000 := by
  simp [Time.Add, DefaultAccessJWTExpiry, Minute, Second]

theorem Add_refresh_unixNano (t : Time) :
    (t.Add DefaultRefreshJWTExpiry).unixNano = t.unixNano + 2592000 * 1000000000 := by
  simp [Time.Add, DefaultRefreshJWTExpiry, Minute, Second]

theorem Unix_Add_access (t : Time) : (t.Add DefaultAccessJWTExpiry).Unix = t.Unix + 86400 := by
  simp only [Time.Unix, Add_access_unixNano, Second]
  exact Int.add_mul_ediv_right _ _ (by decide)

theorem Unix_Add_refresh (t : Time) :
    (t.Add DefaultRefreshJWTExpiry).Unix = t.Unix + 2592000 := by
  simp only [Time.Unix, Add_refresh_unixNano, Second]
  exact Int.add_mul_ediv_right _ _ (by decide)

/-- C5. In every run of signup and of signin on a fresh response, each cookie of
the response carries the token of the signer call at the same position (there is
one for every cookie): the cookie named `access_token` expires exactly 86,400
seconds after the clock reading taken for it and the one named `refresh_token`
exactly 2,592,000 seconds after its reading, and the `ExpiresAt` claim of the
token equals the Unix seconds of the `Expires` of its cookie. The first clock
reading of signup is the one that seeds the verification token. -/
theorem session_cookie_expiry (env : Env) (r : Request) (s : World) :
    ((Result (signup env NewRecorder r s).1).Cookies.length ≤
        (signedSince s (signup env NewRecorder r s).2).length ∧
      ∀ c call, (c, call) ∈ (Result (signup env NewRecorder r s).1).Cookies.zip
          (signedSince s (signup env NewRecorder r s).2) →
        c.Value = (if call.err.isSome then "" else call.tokenString) ∧
        call.claims.StandardClaims.ExpiresAt = c.Expires.Unix ∧
        ((c.Name = "access_token" ∧ call.claims.StandardClaims.Subject = "access" ∧
            c.Expires.unixNano = (env.now (s.ticks + 1)).unixNano + 86400 * 1000000000) ∨
         (c.Name = "refresh_token" ∧ call.claims.StandardClaims.Subject = "refresh" ∧
            c.Expires.unixNano = (env.now (s.ticks + 3)).unixNano + 2592000 * 1000000000))) ∧
    ((Result (signin env NewRecorder r s).1).Cookies.length ≤
        (signedSince s (signin env NewRecorder r s).2).length ∧
      ∀ c call, (c, call) ∈ (Result (signin env NewRecorder r s).1).Cookies.zip
          (signedSince s (signin env NewRecorder r s).2) →
        c.Value = (if call.err.isSome then "" else call.tokenString) ∧
        call.claims.StandardClaims.ExpiresAt = c.Expires.Unix ∧
        ((c.Name = "access_token" ∧ call.claims.StandardClaims.Subject = "access" ∧
            c.Expires.unixNano = (env.now (s.ticks)).unixNano + 86400 * 1000000000) ∨
         (c.Name = "refresh_token" ∧ call.claims.StandardClaims.Subject = "refresh" ∧
            c.Expires.unixNano = (env.now (s.ticks + 2)).unixNano + 2592000 * 1000000000))) := by
  constructor
  · rcases signup_run env r s with ⟨msg, code, s1, h, -, h1, -⟩ | ⟨cr, uid, vt, s1, -, -, -, -, h⟩
    · rw [h]
      simp [Result_Error, NewRecorder]
    · rcases h with ⟨e, -, h1, -, -, h2⟩ | ⟨-, h1, h⟩
      · rw [h2, signedSince_append _ _ _ h1]
        simp
      · rw [signedSince_append _ _ _ h1]
        rcases h with ⟨e, -, -, -, h2⟩ | ⟨-, -, -, h⟩
        · rw [h2]
          refine ⟨by simp, ?_⟩
          intro c call hmem
          simp only [List.zip_cons_cons, List.zip_nil_left, List.mem_singleton,
            Prod.mk.injEq] at hmem
          obtain ⟨rfl, rfl⟩ := hmem
          simp [signCall, tokenOf, accessCookie, issuedClaims, sessionClaims,
            Add_access_unixNano]
        · have h2 : (Result (signup env NewRecorder r s).1).Cookies =
              [accessCookie (tokenOf env
                  (issuedClaims env uid "access" DefaultAccessJWTExpiry (s.ticks + 1)))
                ((env.now (s.ticks + 1)).Add DefaultAccessJWTExpiry),
               refreshCookie (tokenOf env
                  (issuedClaims env uid "refresh" DefaultRefreshJWTExpiry (s.ticks + 3)))
                ((env.now (s.ticks + 3)).Add DefaultRefreshJWTExpiry)] := by
            rcases h with ⟨e, -, h⟩ | ⟨-, h⟩ <;> rw [h]
          rw [h2]
          refine ⟨by simp, ?_⟩
          intro c call hmem
          simp only [List.zip_cons_cons, List.zip_nil_left, List.mem_cons, List.mem_singleton,
            Prod.mk.injEq, List.not_mem_nil, or_false] at hmem
          rcases hmem with ⟨rfl, rfl⟩ | ⟨rfl, rfl⟩ <;>
            simp [signCall, tokenOf, accessCookie, refreshCookie, issuedClaims, sessionClaims,
              Add_access_unixNano, Add_refresh_unixNano]
  · rcases signin_run env r s with ⟨msg, h⟩ | ⟨cr, hp, uid, -, -, h1, -, -, -, h⟩
    · rw [h]
      simp [Result_Error, NewRecorder]
    · rw [signedSince_append _ _ _ h1]
      rcases h with ⟨e, -, -, h2⟩ | ⟨-, -, h2⟩
      · rw [h2]
        refine ⟨by simp, ?_⟩
        intro c call hmem
        simp only [List.zip_cons_cons, List.zip_nil_left, List.mem_singleton,
          Prod.mk.injEq] at hmem
        obtain ⟨rfl, rfl⟩ := hmem
        simp [signCall, tokenOf, accessCookie, issuedClaims, sessionClaims,
          Add_access_unixNano]
      · rw [h2]
        refine ⟨by simp, ?_⟩
        intro c call hmem
        simp only [List.zip_cons_cons, List.zip_nil_left, List.mem_cons, List.mem_singleton,
          Prod.mk.injEq, List.not_mem_nil, or_false] at hmem
        rcases hmem with ⟨rfl, rfl⟩ | ⟨rfl, rfl⟩ <;>
          simp [signCall, tokenOf, accessCookie, refreshCookie, issuedClaims, sessionClaims,
            Add_access_unixNano, Add_refresh_unixNano]

/-- C6, the claim as stated fails: when the clock passes a second boundary between
the reading used for `ExpiresAt` and the reading used for `IssuedAt`, the access
token of a signin has `ExpiresAt - IssuedAt = 86399`. -/
theorem signin_expiry_minus_issued_86399 :
    (signin (sampleEnv fun k => 999999999 + k) NewRecorder { body := some testCreds }
        { users := sampleUsers }).2.signed.map
      (fun c => (c.claims.StandardClaims.Subject,
        c.claims.StandardClaims.ExpiresAt - c.claims.StandardClaims.IssuedAt))
      = [("access", 86399), ("refresh", 2592000)] := by
  decide

/-- C6, amended: for every token signed by signup or signin, `ExpiresAt` comes
from one clock reading `k` and `IssuedAt` from the next reading `k + 1`, so
`ExpiresAt - IssuedAt` is 86,400 (access) or 2,592,000 (refresh) minus the number
of Unix seconds between the two readings; it is exactly 86,400 or 2,592,000 when
both readings fall in the same Unix second. -/
theorem session_token_expiry_minus_issued (env : Env) (r : Request) (s : World) :
    (∀ call ∈ signedSince s (signup env NewRecorder r s).2, ∃ k, s.ticks ≤ k ∧
      ((call.claims.StandardClaims.Subject = "access" ∧
          call.claims.StandardClaims.ExpiresAt - call.claims.StandardClaims.IssuedAt =
            86400 - ((env.now (k + 1)).Unix - (env.now k).Unix) ∧
          ((env.now k).Unix = (env.now (k + 1)).Unix →
            call.claims.StandardClaims.ExpiresAt - call.claims.StandardClaims.IssuedAt
              = 86400)) ∨
       (call.claims.StandardClaims.Subject = "refresh" ∧
          call.claims.StandardClaims.ExpiresAt - call.claims.StandardClaims.IssuedAt =
            2592000 - ((env.now (k + 1)).Unix - (env.now k).Unix) ∧
          ((env.now k).Unix = (env.now (k + 1)).Unix →
            call.claims.StandardClaims.ExpiresAt - call.claims.StandardClaims.IssuedAt
              = 2592000)))) ∧
    (∀ call ∈ signedSince s (signin env NewRecorder r s).2, ∃ k, s.ticks ≤ k ∧
      ((call.claims.StandardClaims.Subject = "access" ∧
          call.claims.StandardClaims.ExpiresAt - call.claims.StandardClaims.IssuedAt =
            86400 - ((env.now (k + 1)).Unix - (env.now k).Unix) ∧
          ((env.now k).Unix = (env.now (k + 1)).Unix →
            call.claims.StandardClaims.ExpiresAt - call.claims.StandardClaims.IssuedAt
              = 86400)) ∨
       (call.claims.StandardClaims.Subject = "refresh" ∧
          call.claims.StandardClaims.ExpiresAt - call.claims.StandardClaims.IssuedAt =
            2592000 - ((env.now (k + 1)).Unix - (env.now k).Unix) ∧
          ((env.now k).Unix = (env.now (k + 1)).Unix →
            call.claims.StandardClaims.ExpiresAt - call.claims.StandardClaims.IssuedAt
              = 2592000)))) := by
  have hA : ∀ (uid : String) (k : Nat), s.ticks ≤ k → ∃ k1, s.ticks ≤ k1 ∧
      (((signCall env (issuedClaims env uid "access" DefaultAccessJWTExpiry k)
            ).claims.StandardClaims.Subject = "access" ∧
          (signCall env (issuedClaims env uid "access" DefaultAccessJWTExpiry k)
            ).claims.StandardClaims.ExpiresAt -
            (signCall env (issuedClaims env uid "access" DefaultAccessJWTExpiry k)
            ).claims.StandardClaims.IssuedAt =
            86400 - ((env.now (k1 + 1)).Unix - (env.now k1).Unix) ∧
          ((env.now k1).Unix = (env.now (k1 + 1)).Unix →
            (signCall env (issuedClaims env uid "access" DefaultAccessJWTExpiry k)
            ).claims.StandardClaims.ExpiresAt -
            (signCall env (issuedClaims env uid "access" DefaultAccessJWTExpiry k)
            ).claims.StandardClaims.IssuedAt = 86400)) ∨
       ((signCall env (issuedClaims env uid "access" DefaultAccessJWTExpiry k)
            ).claims.StandardClaims.Subject = "refresh" ∧
          (signCall env (issuedClaims env uid "access" DefaultAccessJWTExpiry k)
            ).claims.StandardClaims.ExpiresAt -
            (signCall env (issuedClaims env uid "access" DefaultAccessJWTExpiry k)
            ).claims.StandardClaims.IssuedAt =
            2592000 - ((env.now (k1 + 1)).Unix - (env.now k1).Unix) ∧
          ((env.now k1).Unix = (env.now (k1 + 1)).Unix →
            (signCall env (issuedClaims env uid "access" DefaultAccessJWTExpiry k)
            ).claims.StandardClaims.ExpiresAt -
            (signCall env (issuedClaims env uid "access" DefaultAccessJWTExpiry k)
            ).claims.StandardClaims.IssuedAt = 2592000))) := by
    intro uid k hk
    refine ⟨k, hk, Or.inl ⟨rfl, ?_, ?_⟩⟩
    · simp only [signCall, issuedClaims, sessionClaims, Unix_Add_access]; omega
    · intro h; simp only [signCall, issuedClaims, sessionClaims, Unix_Add_access]; omega
  have hB : ∀ (uid : String) (k : Nat), s.ticks ≤ k → ∃ k1, s.ticks ≤ k1 ∧
      (((signCall env (issuedClaims env uid "refresh" DefaultRefreshJWTExpiry k)
            ).claims.StandardClaims.Subject = "access" ∧
          (signCall env (issuedClaims env uid "refresh" DefaultRefreshJWTExpiry k)
            ).claims.StandardClaims.ExpiresAt -
            (signCall env (issuedClaims env uid "refresh" DefaultRefreshJWTExpiry k)
            ).claims.StandardClaims.IssuedAt =
            86400 - ((env.now (k1 + 1)).Unix - (env.now k1).Unix) ∧
          ((env.now k1).Unix = (env.now (k1 + 1)).Unix →
            (signCall env (issuedClaims env uid "refresh" DefaultRefreshJWTExpiry k)
            ).claims.StandardClaims.ExpiresAt -
            (signCall env (issuedClaims env uid "refresh" DefaultRefreshJWTExpiry k)
            ).claims.StandardClaims.IssuedAt = 86400)) ∨
       ((signCall env (issuedClaims env uid "refresh" DefaultRefreshJWTExpiry k)
            ).claims.StandardClaims.Subject = "refresh" ∧
          (signCall env (issuedClaims env uid "refresh" DefaultRefreshJWTExpiry k)
            ).claims.StandardClaims.ExpiresAt -
            (signCall env (issuedClaims env uid "refresh" DefaultRefreshJWTExpiry k)
            ).claims.StandardClaims.IssuedAt =
            2592000 - ((env.now (k1 + 1)).Unix - (env.now k1).Unix) ∧
          ((env.now k1).Unix = (env.now (k1 + 1)).Unix →
            (signCall env (issuedClaims env uid "refresh" DefaultRefreshJWTExpiry k)
            ).claims.StandardClaims.ExpiresAt -
            (signCall env (issuedClaims env uid "refresh" DefaultRefreshJWTExpiry k)
            ).claims.StandardClaims.IssuedAt = 2592000))) := by
    intro uid k hk
    refine ⟨k, hk, Or.inr ⟨rfl, ?_, ?_⟩⟩
    · simp only [signCall, issuedClaims, sessionClaims, Unix_Add_refresh]; omega
    · intro h; simp only [signCall, issuedClaims, sessionClaims, Unix_Add_refresh]; omega
  constructor
  · intro call hcall
    rcases signup_run env r s with ⟨msg, code, s1, h, -, h1, -⟩ | ⟨cr, uid, vt, s1, -, -, -, -, h⟩
    · rw [h, signedSince_append s _ [] (by simpa using h1)] at hcall
      cases hcall
    · rcases h with ⟨e, -, h1, -⟩ | ⟨-, h1, -⟩
      · rw [signedSince_append _ _ _ h1, List.mem_singleton] at hcall
        subst hcall
        exact hA uid (s.ticks + 1) (by omega)
      · rw [signedSince_append _ _ _ h1] at hcall
        simp only [List.mem_cons, List.mem_singleton, List.not_mem_nil, or_false] at hcall
        rcases hcall with rfl | rfl
        · exact hA uid (s.ticks + 1) (by omega)
        · exact hB uid (s.ticks + 3) (by omega)
  · intro call hcall
    rcases signin_run env r s with ⟨msg, h⟩ | ⟨cr, hp, uid, -, -, h1, -⟩
    · rw [h, signedSince_append s s [] (by simp)] at hcall
      cases hcall
    · rw [signedSince_append _ _ _ h1] at hcall
      simp only [List.mem_cons, List.mem_singleton, List.not_mem_nil, or_false] at hcall
      rcases hcall with rfl | rfl
      · exact hA "" s.ticks (le_refl _)
      · exact hB uid (s.ticks + 2) (by omega)

/-! ## signup: mail dispatch -/

/-- C7. For every signup on a fresh response in which the checks pass, hashing
and storage succeed, every signing of the run succeeds, and the mailer's
`SendEmail` returns an error: the status sent is 500 (and so not 201), the
response carries the two session cookies, the mail was handed to the mailer, and
the account stored by the run is still in the table (with `verified = false`),
after all rows that were there before. -/
theorem signup_mail_failure (env : Env) (r : Request) (s : World)
    (credentials : Credentials) (userID verifyToken : String) (s1 : World) (e : String)
    (hcheck : signupCheck env NewRecorder r s = .ok credentials)
    (hhash : (env.GenerateFromPassword credentials.Password).2 = none)
    (hstore : signupStore env NewRecorder credentials
      (env.GenerateFromPassword credentials.Password).1 s = .ok (userID, verifyToken, s1))
    (hsign : ∀ call ∈ signedSince s (signup env NewRecorder r s).2, call.err = none)
    (hmail : env.SendEmail credentials.Email "Email Verification" "user-signup.html"
      verifyToken = some e) :
    (Result (signup env NewRecorder r s).1).StatusCode = StatusInternalServerError ∧
      (Result (signup env NewRecorder r s).1).StatusCode ≠ StatusCreated ∧
      (Result (signup env NewRecorder r s).1).Cookies.map (fun c => c.Name)
        = ["access_token", "refresh_token"] ∧
      mailedSince s (signup env NewRecorder r s).2
        = [⟨credentials.Email, "Email Verification", "user-signup.html", verifyToken⟩] ∧
      (signup env NewRecorder r s).2.users = s1.users ∧
      (signup env NewRecorder r s).2.users = s.users ++
        [⟨userID, credentials.Username, credentials.Email,
          (env.GenerateFromPassword credentials.Password).1, false, verifyToken, ""⟩] := by
  obtain ⟨-, hs1⟩ := signupStore_ok env NewRecorder credentials _ s userID verifyToken s1 hstore
  obtain ⟨hu, h⟩ := signup_stored_run env r s credentials userID verifyToken s1 hcheck hhash hstore
  have hu1 : s1.users = s.users ++
      [⟨userID, credentials.Username, credentials.Email,
          (env.GenerateFromPassword credentials.Password).1, false, verifyToken, ""⟩] := by
    rw [hs1]
  rcases h with ⟨e1, ha, h1, -⟩ | ⟨-, h1, h⟩
  · rw [signedSince_append _ _ _ h1] at hsign
    have := hsign _ (List.mem_singleton.mpr rfl)
    simp [signCall, ha] at this
  · rcases h with ⟨e1, hb, -⟩ | ⟨-, ho, -, h⟩
    · rw [signedSince_append _ _ _ h1] at hsign
      have := hsign _ (List.mem_cons_of_mem _ (List.mem_singleton.mpr rfl))
      simp [signCall, hb] at this
    · rcases h with ⟨e1, -, hr⟩ | ⟨hm, -⟩
      · rw [hr]
        refine ⟨rfl, ?_, ?_, mailedSince_append _ _ _ ho, ?_, hu⟩
        · show StatusInternalServerError ≠ StatusCreated
          decide
        · simp [accessCookie, refreshCookie]
        · rw [hu, hu1]
      · rw [hm] at hmail
        cases hmail

theorem signup_mail_failure_witness :
    (Result (signup { sampleEnv (fun k => k) with SendEmail := fun _ _ _ _ => some "smtp down" }
        NewRecorder { body := some testCreds } {}).1).StatusCode = StatusInternalServerError ∧
      (Result (signup { sampleEnv (fun k => k) with SendEmail := fun _ _ _ _ => some "smtp down" }
        NewRecorder { body := some testCreds } {}).1).Cookies.map (fun c => c.Name)
        = ["access_token", "refresh_token"] ∧
      (signup { sampleEnv (fun k => k) with SendEmail := fun _ _ _ _ => some "smtp down" }
        NewRecorder { body := some testCreds } {}).2.users =
        [⟨"user-0", "GoldenBear321", "devops@berkeley.edu", "h:DaddyDenero123", false,
          "ABCDEF", ""⟩] :=
  have h := signup_mail_failure
    { sampleEnv (fun k => k) with SendEmail := fun _ _ _ _ => some "smtp down" }
    { body := some testCreds } {} testCreds "user-0" "ABCDEF"
    { users := [⟨"user-0", "GoldenBear321", "devops@berkeley.edu", "h:DaddyDenero123", false,
        "ABCDEF", ""⟩], ticks := 1, uuids := 1 }
    "smtp down" rfl rfl rfl (by decide) rfl
  ⟨h.1, h.2.2.1, h.2.2.2.2.2⟩

/-- C8. For every signup on a fresh response in which the uniqueness checks pass,
hashing and storage succeed, every signing of the run succeeds and the mailer
returns no error: the status is 201, the response has exactly two cookies, the
first named `access_token` and the second `refresh_token`, each with path "/" and
an `Expires` strictly after the time `t0` of the request (the clock readings of
the run are not earlier than `t0`), and `SendEmail` was called, once, with the
verification token for the email of the credentials. -/
theorem signup_success (env : Env) (r : Request) (s : World)
    (credentials : Credentials) (userID verifyToken : String) (s1 : World) (t0 : Time)
    (hcheck : signupCheck env NewRecorder r s = .ok credentials)
    (hhash : (env.GenerateFromPassword credentials.Password).2 = none)
    (hstore : signupStore env NewRecorder credentials
      (env.GenerateFromPassword credentials.Password).1 s = .ok (userID, verifyToken, s1))
    (hsign : ∀ call ∈ signedSince s (signup env NewRecorder r s).2, call.err = none)
    (hmail : env.SendEmail credentials.Email "Email Verification" "user-signup.html"
      verifyToken = none)
    (hclock : ∀ k, s.ticks ≤ k → t0.unixNano ≤ (env.now k).unixNano) :
    (Result (signup env NewRecorder r s).1).StatusCode = StatusCreated ∧
      (∃ ca cr, (Result (signup env NewRecorder r s).1).Cookies = [ca, cr] ∧
        ca.Name = "access_token" ∧ cr.Name = "refresh_token" ∧
        ca.Path = "/" ∧ cr.Path = "/" ∧
        ca.Expires.After t0 = true ∧ cr.Expires.After t0 = true) ∧
      mailedSince s (signup env NewRecorder r s).2
        = [⟨credentials.Email, "Email Verification", "user-signup.html", verifyToken⟩] ∧
      (signup env NewRecorder r s).2.users = s.users ++
        [⟨userID, credentials.Username, credentials.Email,
          (env.GenerateFromPassword credentials.Password).1, false, verifyToken, ""⟩] := by
  obtain ⟨hu, h⟩ := signup_stored_run env r s credentials userID verifyToken s1 hcheck hhash hstore
  rcases h with ⟨e1, ha, h1, -⟩ | ⟨-, h1, h⟩
  · rw [signedSince_append _ _ _ h1] at hsign
    have := hsign _ (List.mem_singleton.mpr rfl)
    simp [signCall, ha] at this
  · rcases h with ⟨e1, hb, -⟩ | ⟨-, ho, -, h⟩
    · rw [signedSince_append _ _ _ h1] at hsign
      have := hsign _ (List.mem_cons_of_mem _ (List.mem_singleton.mpr rfl))
      simp [signCall, hb] at this
    · rcases h with ⟨e1, hm, -⟩ | ⟨-, hr⟩
      · rw [hm] at hmail
        cases hmail
      · rw [hr]
        refine ⟨rfl, ⟨_, _, rfl, rfl, rfl, rfl, rfl, ?_, ?_⟩, mailedSince_append _ _ _ ho, hu⟩
        · have := hclock (s.ticks + 1) (by omega)
          simp only [accessCookie, Time.After, Add_access_unixNano, decide_eq_true_eq]
          omega
        · have := hclock (s.ticks + 3) (by omega)
          simp only [refreshCookie, Time.After, Add_refresh_unixNano, decide_eq_true_eq]
          omega

theorem signup_success_witness :
    (Result (signup (sampleEnv fun k => k) NewRecorder { body := some testCreds } {}).1
        ).StatusCode = StatusCreated ∧
      (∃ ca cr, (Result (signup (sampleEnv fun k => k) NewRecorder
          { body := some testCreds } {}).1).Cookies = [ca, cr] ∧
        ca.Name = "access_token" ∧ cr.Name = "refresh_token" ∧
        ca.Path = "/" ∧ cr.Path = "/" ∧
        ca.Expires.After ⟨0⟩ = true ∧ cr.Expires.After ⟨0⟩ = true) :=
  have h := signup_success (sampleEnv fun k => k) { body := some testCreds } {}
    testCreds "user-0" "ABCDEF"
    { users := [⟨"user-0", "GoldenBear321", "devops@berkeley.edu", "h:DaddyDenero123", false,
        "ABCDEF", ""⟩], ticks := 1, uuids := 1 }
    ⟨0⟩ rfl rfl rfl (by decide) rfl
    (fun k _ => by simp only [sampleEnv]; omega)
  ⟨h.1, h.2.1⟩

/-! ## signin -/

/-- C9. For every signin on a fresh response in which the account is found and
the comparison of the stored hash with the supplied password returns an error,
the response has status BadRequest (400) and no cookie is set (none in the
headers of the writer, none in the response); nothing else changes. -/
theorem signin_wrong_password (env : Env) (r : Request) (s : World)
    (credentials : Credentials) (hashedPassword userID e : String)
    (hlookup : signinLookup env NewRecorder r s = .ok (credentials, hashedPassword, userID))
    (hcompare : env.CompareHashAndPassword hashedPassword credentials.Password = some e) :
    (Result (signin env NewRecorder r s).1).StatusCode = StatusBadRequest ∧
      (Result (signin env NewRecorder r s).1).Cookies = [] ∧
      (signin env NewRecorder r s).1.HeaderMap.SetCookie = [] ∧
      (signin env NewRecorder r s).2 = s := by
  rw [signin_mismatch env NewRecorder r s credentials hashedPassword userID e hlookup hcompare]
  simp [Result_Error, Error_setCookie, NewRecorder]

theorem signin_wrong_password_witness :
    (Result (signin (sampleEnv fun k => k) NewRecorder
        { body := some { testCreds with Password := "DaddyHilfinger123" } }
        { users := sampleUsers }).1).StatusCode = StatusBadRequest ∧
      (Result (signin (sampleEnv fun k => k) NewRecorder
        { body := some { testCreds with Password := "DaddyHilfinger123" } }
        { users := sampleUsers }).1).Cookies = [] :=
  have h := signin_wrong_password (sampleEnv fun k => k)
    { body := some { testCreds with Password := "DaddyHilfinger123" } }
    { users := sampleUsers } { testCreds with Password := "DaddyHilfinger123" }
    "h:DaddyDenero123" "user-0" "mismatch" rfl rfl
  ⟨h.1, h.2.1⟩

theorem issuedClaims_access_congr (env : Env) (userID : String) (k k1 : Nat)
    (h0 : (env.now k).Unix = (env.now k1).Unix)
    (h1 : (env.now (k + 1)).Unix = (env.now (k1 + 1)).Unix) :
    issuedClaims env userID "access" DefaultAccessJWTExpiry k =
      issuedClaims env userID "access" DefaultAccessJWTExpiry k1 := by
  simp [issuedClaims, sessionClaims, Unix_Add_access, h0, h1]

theorem issuedClaims_refresh_congr (env : Env) (userID : String) (k k1 : Nat)
    (h0 : (env.now k).Unix = (env.now k1).Unix)
    (h1 : (env.now (k + 1)).Unix = (env.now (k1 + 1)).Unix) :
    issuedClaims env userID "refresh" DefaultRefreshJWTExpiry k =
      issuedClaims env userID "refresh" DefaultRefreshJWTExpiry k1 := by
  simp [issuedClaims, sessionClaims, Unix_Add_refresh, h0, h1]

theorem issuedClaims_access_inj (env : Env) (userID : String) (k k1 : Nat)
    (h : issuedClaims env userID "access" DefaultAccessJWTExpiry k =
      issuedClaims env userID "access" DefaultAccessJWTExpiry k1) :
    (env.now k).Unix = (env.now k1).Unix ∧ (env.now (k + 1)).Unix = (env.now (k1 + 1)).Unix := by
  simp only [issuedClaims, sessionClaims, Unix_Add_access, AuthClaims.mk.injEq,
    StandardClaims.mk.injEq, true_and, and_true] at h
  exact ⟨by omega, h.2⟩

theorem issuedClaims_refresh_inj (env : Env) (userID : String) (k k1 : Nat)
    (h : issuedClaims env userID "refresh" DefaultRefreshJWTExpiry k =
      issuedClaims env userID "refresh" DefaultRefreshJWTExpiry k1) :
    (env.now k).Unix = (env.now k1).Unix ∧ (env.now (k + 1)).Unix = (env.now (k1 + 1)).Unix := by
  simp only [issuedClaims, sessionClaims, Unix_Add_refresh, AuthClaims.mk.injEq,
    StandardClaims.mk.injEq, true_and, and_true] at h
  exact ⟨by omega, h.2⟩

/-- C10, the claim as stated fails: two signin calls with the same valid
credentials, one after the other within the same clock second, both succeed and
deliver the identical pair of session tokens. -/
theorem signin_twice_same_second_identical_tokens :
    (Result (signin (sampleEnv fun k => k) NewRecorder { body := some testCreds }
        { users := sampleUsers }).1).StatusCode = StatusOK ∧
      (Result (signin (sampleEnv fun k => k) NewRecorder { body := some testCreds }
        (signin (sampleEnv fun k => k) NewRecorder { body := some testCreds }
          { users := sampleUsers }).2).1).StatusCode = StatusOK ∧
      ¬ sessionTokens (Result (signin (sampleEnv fun k => k) NewRecorder
          { body := some testCreds } { users := sampleUsers }).1) ≠
        sessionTokens (Result (signin (sampleEnv fun k => k) NewRecorder
          { body := some testCreds }
          (signin (sampleEnv fun k => k) NewRecorder { body := some testCreds }
            { users := sampleUsers }).2).1) := by
  decide

/-- C10, amended: for every pair of signin calls on fresh responses with the same
credentials, found for the same account with a matching password, the pair of
session tokens depends on the clock only through the Unix seconds of the four
readings of each call. When the readings of the two calls fall in the same Unix
seconds, the two pairs are identical. When some reading of the second call falls
in another Unix second than the corresponding reading of the first, every signing
succeeds, and the signer gave different claims different token strings, the two
pairs are non-identical. -/
theorem signin_twice_tokens (env : Env) (r : Request) (s s1 : World)
    (credentials : Credentials) (hashedPassword userID : String)
    (hl : signinLookup env NewRecorder r s = .ok (credentials, hashedPassword, userID))
    (hl1 : signinLookup env NewRecorder r s1 = .ok (credentials, hashedPassword, userID))
    (hc : env.CompareHashAndPassword hashedPassword credentials.Password = none) :
    ((∀ i, i < 4 → (env.now (s.ticks + i)).Unix = (env.now (s1.ticks + i)).Unix) →
      sessionTokens (Result (signin env NewRecorder r s).1) =
        sessionTokens (Result (signin env NewRecorder r s1).1)) ∧
    ((∃ i, i < 4 ∧ (env.now (s.ticks + i)).Unix ≠ (env.now (s1.ticks + i)).Unix) →
      (∀ call ∈ signedSince s (signin env NewRecorder r s).2, call.err = none) →
      (∀ call ∈ signedSince s1 (signin env NewRecorder r s1).2, call.err = none) →
      (∀ c ∈ signedSince s (signin env NewRecorder r s).2,
        ∀ c1 ∈ signedSince s1 (signin env NewRecorder r s1).2,
          c.tokenString = c1.tokenString → c.claims = c1.claims) →
      sessionTokens (Result (signin env NewRecorder r s).1) ≠
        sessionTokens (Result (signin env NewRecorder r s1).1)) := by
  obtain ⟨h1, -, -, -, h⟩ := signin_issue_run env r s credentials hashedPassword userID hl hc
  obtain ⟨k1, -, -, -, k⟩ := signin_issue_run env r s1 credentials hashedPassword userID hl1 hc
  constructor
  · intro hsec
    have e0 := hsec 0 (by omega)
    have e1 := hsec 1 (by omega)
    have e2 := hsec 2 (by omega)
    have e3 := hsec 3 (by omega)
    have ea := issuedClaims_access_congr env "" s.ticks s1.ticks e0 e1
    have eb := issuedClaims_refresh_congr env userID (s.ticks + 2) (s1.ticks + 2) e2 e3
    rcases h with ⟨e, hb, -, hr⟩ | ⟨hb, -, hr⟩ <;> rcases k with ⟨e', kb, -, kr⟩ | ⟨kb, -, kr⟩
    · rw [hr, kr]; simp [sessionTokens, accessCookie, ea]
    · rw [eb, kb] at hb; cases hb
    · rw [eb, kb] at hb; cases hb
    · rw [hr, kr]; simp [sessionTokens, accessCookie, refreshCookie, ea, eb]
  · rintro ⟨i, hi, hne⟩ hs hs1 hinj heq
    rw [signedSince_append _ _ _ h1] at hs hinj
    rw [signedSince_append _ _ _ k1] at hs1 hinj
    have sa := hs _ (List.mem_cons_self _ _)
    have sb := hs _ (List.mem_cons_of_mem _ (List.mem_singleton.mpr rfl))
    have sa1 := hs1 _ (List.mem_cons_self _ _)
    have sb1 := hs1 _ (List.mem_cons_of_mem _ (List.mem_singleton.mpr rfl))
    simp only [signCall] at sa sb sa1 sb1
    rcases h with ⟨e, hb, -⟩ | ⟨-, -, hr⟩
    · rw [sb] at hb; cases hb
    · rcases k with ⟨e', kb, -⟩ | ⟨-, -, kr⟩
      · rw [sb1] at kb; cases kb
      · rw [hr, kr] at heq
        simp only [sessionTokens, List.map_cons, List.map_nil, accessCookie, refreshCookie,
          tokenOf, sa, sb, sa1, sb1, Option.isSome_none, Bool.false_eq_true, if_false,
          List.cons.injEq, Prod.mk.injEq, true_and, and_true] at heq
        have ca := hinj _ (List.mem_cons_self _ _) _ (List.mem_cons_self _ _) heq.1
        have cb := hinj _ (List.mem_cons_of_mem _ (List.mem_singleton.mpr rfl)) _
          (List.mem_cons_of_mem _ (List.mem_singleton.mpr rfl)) heq.2
        obtain ⟨e0, e1⟩ := issuedClaims_access_inj env "" s.ticks s1.ticks ca
        obtain ⟨e2, e3⟩ := issuedClaims_refresh_inj env userID (s.ticks + 2) (s1.ticks + 2) cb
        have : i = 0 ∨ i = 1 ∨ i = 2 ∨ i = 3 := by omega
        rcases this with rfl | rfl | rfl | rfl
        · exact hne e0
        · exact hne e1
        · exact hne e2
        · exact hne e3

theorem signin_twice_tokens_witness :
    sessionTokens (Result (signin secondsEnv NewRecorder { body := some testCreds }
        { users := sampleUsers }).1) ≠
      sessionTokens (Result (signin secondsEnv NewRecorder { body := some testCreds }
        { users := sampleUsers, ticks := 4 }).1) :=
  (signin_twice_tokens secondsEnv { body := some testCreds } { users := sampleUsers }
    { users := sampleUsers, ticks := 4 } testCreds "h:DaddyDenero123" "user-0"
    rfl rfl rfl).2 ⟨0, by decide, by decide⟩ (by decide) (by decide) (by decide)

/-! ## logout -/

/-- C11. For every request, with or without session cookies attached, logout on
a fresh response returns status 200 and exactly two cookies, the first named
`access_token` and the second `refresh_token`, both with an empty value and both
with the same expiry, which lies strictly before the clock reading of the call
and so before every instant `t` not earlier than that reading; neither the
response nor the world after the call depends on the request. -/
theorem logout_two_expired_cookies (env : Env) (r r1 : Request) (s : World) :
    logout env NewRecorder r s = logout env NewRecorder r1 s ∧
      (Result (logout env NewRecorder r s).1).StatusCode = StatusOK ∧
      (Result (logout env NewRecorder r s).1).Body = "" ∧
      ∃ ca cr, (Result (logout env NewRecorder r s).1).Cookies = [ca, cr] ∧
        ca.Name = "access_token" ∧ cr.Name = "refresh_token" ∧
        ca.Value = "" ∧ cr.Value = "" ∧ ca.Expires = cr.Expires ∧
        ca.Expires.Before (env.now s.ticks) = true ∧
        cr.Expires.Before (env.now s.ticks) = true ∧
        ∀ t : Time, (env.now s.ticks).unixNano ≤ t.unixNano →
          ca.Expires.Before t = true ∧ cr.Expires.Before t = true := by
  have ha : isCookieNameValid "access_token" = true := by decide
  have hr : isCookieNameValid "refresh_token" = true := by decide
  refine ⟨rfl, ?_, ?_, ?_⟩
  · simp [logout, logoutExpiresAt, Now, SetCookie, ha, hr, Result, NewRecorder, StatusOK]
  · simp [logout, logoutExpiresAt, Now, SetCookie, ha, hr, Result, NewRecorder]
  · have hc : (Result (logout env NewRecorder r s).1).Cookies =
        [{ Name := "access_token", Value := "",
           Expires := (env.now s.ticks).Add (-((env.logoutAge : Int) + 1)) },
         { Name := "refresh_token", Value := "",
           Expires := (env.now s.ticks).Add (-((env.logoutAge : Int) + 1)) }] := by
      simp [logout, logoutExpiresAt, Now, SetCookie, ha, hr, Result, NewRecorder]
    rw [hc]
    refine ⟨_, _, rfl, rfl, rfl, rfl, rfl, rfl, ?_, ?_, ?_⟩
    · simp only [Time.Before, Time.Add, decide_eq_true_eq]; omega
    · simp only [Time.Before, Time.Add, decide_eq_true_eq]; omega
    · intro t ht
      simp only [Time.Before, Time.Add, decide_eq_true_eq]
      constructor <;> omega

/-! ## Signing failures -/

/-- C12. In every run of signup on a fresh response in which the signing of the
access token or of the refresh token fails, the status is 500. In every run of
signin in which the signing of the refresh token fails, the status is 500; and
when the signer fails whatever the claims (HS256 with the fixed key), every run
of signin in which the signing of the access token or of the refresh token fails
has status 500, so a signin whose access-token signing fails returns no success
response. -/
theorem signing_failure_is_internal (env : Env) (r : Request) (s : World) :
    ((∃ call ∈ signedSince s (signup env NewRecorder r s).2, call.err ≠ none) →
      (Result (signup env NewRecorder r s).1).StatusCode = StatusInternalServerError) ∧
    ((∃ call ∈ signedSince s (signin env NewRecorder r s).2,
        call.claims.StandardClaims.Subject = "refresh" ∧ call.err ≠ none) →
      (Result (signin env NewRecorder r s).1).StatusCode = StatusInternalServerError) ∧
    (uniformSigner env →
      (∃ call ∈ signedSince s (signin env NewRecorder r s).2, call.err ≠ none) →
      (Result (signin env NewRecorder r s).1).StatusCode = StatusInternalServerError ∧
        (Result (signin env NewRecorder r s).1).StatusCode ≠ StatusOK) := by
  refine ⟨?_, ?_, ?_⟩
  · rintro ⟨call, hmem, herr⟩
    rcases signup_run env r s with ⟨msg, code, s1, h, -, h1, -⟩ | ⟨cr, uid, vt, s1, -, -, -, -, h⟩
    · rw [h, signedSince_append s _ [] (by simpa using h1)] at hmem
      cases hmem
    · rcases h with ⟨e, -, -, -, -, hr⟩ | ⟨ha, h1, h⟩
      · rw [hr]
      · rcases h with ⟨e, -, -, -, hr⟩ | ⟨hb, -⟩
        · rw [hr]
        · rw [signedSince_append _ _ _ h1] at hmem
          simp only [List.mem_cons, List.mem_singleton, List.not_mem_nil, or_false] at hmem
          rcases hmem with rfl | rfl
          · exact absurd ha herr
          · exact absurd hb herr
  · rintro ⟨call, hmem, hsub, herr⟩
    rcases signin_run env r s with ⟨msg, h⟩ | ⟨cr, hp, uid, -, -, h1, -, -, -, h⟩
    · rw [h, signedSince_append s s [] (by simp)] at hmem
      cases hmem
    · rcases h with ⟨e, -, -, hr⟩ | ⟨hb, -⟩
      · rw [hr]
      · rw [signedSince_append _ _ _ h1] at hmem
        simp only [List.mem_cons, List.mem_singleton, List.not_mem_nil, or_false] at hmem
        rcases hmem with rfl | rfl
        · simp [signCall, issuedClaims, sessionClaims] at hsub
        · exact absurd hb herr
  · rintro huni ⟨call, hmem, herr⟩
    rcases signin_run env r s with ⟨msg, h⟩ | ⟨cr, hp, uid, -, -, h1, -, -, -, h⟩
    · rw [h, signedSince_append s s [] (by simp)] at hmem
      cases hmem
    · rcases h with ⟨e, -, -, hr⟩ | ⟨hb, -⟩
      · rw [hr]
        refine ⟨rfl, ?_⟩
        show StatusInternalServerError ≠ StatusOK
        decide
      · rw [signedSince_append _ _ _ h1] at hmem
        simp only [List.mem_cons, List.mem_singleton, List.not_mem_nil, or_false] at hmem
        rcases hmem with rfl | rfl
        · exact absurd (huni _ _ hb) herr
        · exact absurd hb herr

theorem signing_failure_is_internal_witness :
    uniformSigner (signFailEnv "key unavailable") ∧
    (∃ call ∈ signedSince { users := sampleUsers }
        (signin (signFailEnv "key unavailable") NewRecorder { body := some testCreds }
          { users := sampleUsers }).2,
      call.claims.StandardClaims.Subject = "access" ∧ call.err ≠ none) ∧
    (Result (signin (signFailEnv "key unavailable") NewRecorder { body := some testCreds }
        { users := sampleUsers }).1).StatusCode = StatusInternalServerError ∧
    (Result (signup (signFailEnv "key unavailable") NewRecorder { body := some testCreds }
        {}).1).StatusCode = StatusInternalServerError :=
  have hu : uniformSigner (signFailEnv "key unavailable") := fun _ _ h => by cases h
  ⟨hu, by decide,
    ((signing_failure_is_internal (signFailEnv "key unavailable") { body := some testCreds }
      { users := sampleUsers }).2.2 hu (by decide)).1,
    (signing_failure_is_internal (signFailEnv "key unavailable") { body := some testCreds }
      {}).1 (by decide)⟩

/-! ## setClaims, as a function of the signer -/

/-- C18. `setClaims` returns the error of the signing step, so it returns an
error exactly when signing fails; in that case the token string it returns is
empty; when signing succeeds it returns the signed string unchanged, with a nil
error. It makes exactly one signer call. -/
theorem setClaims_error_iff_signing_fails (env : Env) (claims : AuthClaims) (s : World) :
    (setClaims env claims s).1.2 = (env.SignedString claims).2 ∧
      ((setClaims env claims s).1.2 ≠ none ↔ (env.SignedString claims).2 ≠ none) ∧
      ((env.SignedString claims).2 ≠ none → (setClaims env claims s).1.1 = "") ∧
      ((env.SignedString claims).2 = none →
        (setClaims env claims s).1 = ((env.SignedString claims).1, none)) ∧
      signedSince s (setClaims env claims s).2 = [signCall env claims] := by
  rw [setClaims_eq]
  refine ⟨rfl, Iff.rfl, ?_, ?_, signedSince_append _ _ _ rfl⟩
  · intro h
    cases h1 : (env.SignedString claims).2 with
    | none => exact absurd h1 h
    | some e => simp [tokenOf, h1]
  · intro h
    simp [tokenOf, h]

/-! ## Subject and issuer of the session tokens -/

/-- C14. In every run of signup and of signin on a fresh response, each cookie of
the response carries the token of the signer call at the same position (there is
one for every cookie); the token carried by the cookie named `access_token` has
subject "access", the one carried by the cookie named `refresh_token` has subject
"refresh", and every token signed by the run has the issuer `defaultJWTIssuer`,
the fixed string "CalChat". -/
theorem session_token_subject_and_issuer (env : Env) (r : Request) (s : World) :
    (((Result (signup env NewRecorder r s).1).Cookies.length ≤
        (signedSince s (signup env NewRecorder r s).2).length ∧
      ∀ c call, (c, call) ∈ (Result (signup env NewRecorder r s).1).Cookies.zip
          (signedSince s (signup env NewRecorder r s).2) →
        c.Value = (if call.err.isSome then "" else call.tokenString) ∧
        (c.Name = "access_token" → call.claims.StandardClaims.Subject = "access") ∧
        (c.Name = "refresh_token" → call.claims.StandardClaims.Subject = "refresh") ∧
        (c.Name = "access_token" ∨ c.Name = "refresh_token")) ∧
     ∀ call ∈ signedSince s (signup env NewRecorder r s).2,
       call.claims.StandardClaims.Issuer = defaultJWTIssuer ∧
       call.claims.StandardClaims.Issuer = "CalChat") ∧
    (((Result (signin env NewRecorder r s).1).Cookies.length ≤
        (signedSince s (signin env NewRecorder r s).2).length ∧
      ∀ c call, (c, call) ∈ (Result (signin env NewRecorder r s).1).Cookies.zip
          (signedSince s (signin env NewRecorder r s).2) →
        c.Value = (if call.err.isSome then "" else call.tokenString) ∧
        (c.Name = "access_token" → call.claims.StandardClaims.Subject = "access") ∧
        (c.Name = "refresh_token" → call.claims.StandardClaims.Subject = "refresh") ∧
        (c.Name = "access_token" ∨ c.Name = "refresh_token")) ∧
     ∀ call ∈ signedSince s (signin env NewRecorder r s).2,
       call.claims.StandardClaims.Issuer = defaultJWTIssuer ∧
       call.claims.StandardClaims.Issuer = "CalChat") := by
  constructor
  · rcases signup_run env r s with ⟨msg, code, s1, h, -, h1, -⟩ | ⟨cr, uid, vt, s1, -, -, -, -, h⟩
    · rw [h, signedSince_append s _ [] (by simpa using h1)]
      simp [Result_Error, NewRecorder]
    · rcases h with ⟨e, -, h1, -, -, h2⟩ | ⟨-, h1, h⟩
      · rw [h2, signedSince_append _ _ _ h1]
        simp [signCall, issuedClaims, sessionClaims, defaultJWTIssuer]
      · rw [signedSince_append _ _ _ h1]
        have h2 : (Result (signup env NewRecorder r s).1).Cookies =
              [accessCookie (tokenOf env
                  (issuedClaims env uid "access" DefaultAccessJWTExpiry (s.ticks + 1)))
                ((env.now (s.ticks + 1)).Add DefaultAccessJWTExpiry)] ∨
            (Result (signup env NewRecorder r s).1).Cookies =
              [accessCookie (tokenOf env
                  (issuedClaims env uid "access" DefaultAccessJWTExpiry (s.ticks + 1)))
                ((env.now (s.ticks + 1)).Add DefaultAccessJWTExpiry),
               refreshCookie (tokenOf env
                  (issuedClaims env uid "refresh" DefaultRefreshJWTExpiry (s.ticks + 3)))
                ((env.now (s.ticks + 3)).Add DefaultRefreshJWTExpiry)] := by
          rcases h with ⟨e, -, -, -, h⟩ | ⟨-, -, -, ⟨e, -, h⟩ | ⟨-, h⟩⟩
          · left; rw [h]
          · right; rw [h]
          · right; rw [h]
        refine ⟨?_, by simp [signCall, issuedClaims, sessionClaims, defaultJWTIssuer]⟩
        rcases h2 with h2 | h2 <;> rw [h2] <;> refine ⟨by simp, ?_⟩ <;> intro c call hmem
        · simp only [List.zip_cons_cons, List.zip_nil_left, List.mem_singleton,
            Prod.mk.injEq] at hmem
          obtain ⟨rfl, rfl⟩ := hmem
          simp [signCall, tokenOf, accessCookie, issuedClaims, sessionClaims]
        · simp only [List.zip_cons_cons, List.zip_nil_left, List.mem_cons, List.mem_singleton,
            Prod.mk.injEq, List.not_mem_nil, or_false] at hmem
          rcases hmem with ⟨rfl, rfl⟩ | ⟨rfl, rfl⟩ <;>
            simp [signCall, tokenOf, accessCookie, refreshCookie, issuedClaims, sessionClaims]
  · rcases signin_run env r s with ⟨msg, h⟩ | ⟨cr, hp, uid, -, -, h1, -, -, -, h⟩
    · rw [h, signedSince_append s s [] (by simp)]
      simp [Result_Error, NewRecorder]
    · rw [signedSince_append _ _ _ h1]
      refine ⟨?_, by simp [signCall, issuedClaims, sessionClaims, defaultJWTIssuer]⟩
      rcases h with ⟨e, -, -, h2⟩ | ⟨-, -, h2⟩ <;> rw [h2] <;> refine ⟨by simp, ?_⟩ <;>
        intro c call hmem
      · simp only [List.zip_cons_cons, List.zip_nil_left, List.mem_singleton,
          Prod.mk.injEq] at hmem
        obtain ⟨rfl, rfl⟩ := hmem
        simp [signCall, tokenOf, accessCookie, issuedClaims, sessionClaims]
      · simp only [List.zip_cons_cons, List.zip_nil_left, List.mem_cons, List.mem_singleton,
          Prod.mk.injEq, List.not_mem_nil, or_false] at hmem
        rcases hmem with ⟨rfl, rfl⟩ | ⟨rfl, rfl⟩ <;>
          simp [signCall, tokenOf, accessCookie, refreshCookie, issuedClaims, sessionClaims]

/-! ## verify with an unknown token -/

theorem utf8ByteSize_ne_zero (t : String) (h : t ≠ "") : t.utf8ByteSize ≠ 0 := by
  obtain ⟨cs⟩ := t
  cases cs with
  | nil => exact absurd rfl h
  | cons c cs =>
    have hc : 0 < c.utf8Size := Char.utf8Size_pos c
    simp only [String.utf8ByteSize, String.utf8ByteSize.go]
    omega

/-- C15. For every request on a fresh response whose token is non-empty and
equals the verification token of no account, when the update executes (and so
affects zero rows), verify fails with status BadRequest (400), sets no cookie,
and changes no account: the world after the call is the world before it. -/
theorem verify_unknown_token (env : Env) (r : Request) (s : World)
    (hne : r.token ≠ "")
    (hexec : env.dbErr "setVerified" = none)
    (hnone : ∀ u ∈ s.users, u.verifiedToken ≠ r.token) :
    (Result (verify env NewRecorder r s).1).StatusCode = StatusBadRequest ∧
      (Result (verify env NewRecorder r s).1).Cookies = [] ∧
      (verify env NewRecorder r s).2.users = s.users ∧
      (verify env NewRecorder r s).2 = s := by
  have h0 : s.users.filter (fun u => u.verifiedToken == r.token) = [] := by
    rw [List.filter_eq_nil_iff]
    intro u hu
    simpa using hnone u hu
  have hv : verify env NewRecorder r s = (Error NewRecorder "invalid token" StatusBadRequest, s) := by
    simp [verify, utf8ByteSize_ne_zero r.token hne, verifyUpdate, hexec, h0]
  rw [hv]
  simp [Result_Error, NewRecorder]

theorem verify_unknown_token_witness :
    (Result (verify (sampleEnv fun k => k) NewRecorder { token := "bogusbogie123" }
        { users := sampleUsers }).1).StatusCode = StatusBadRequest ∧
      (verify (sampleEnv fun k => k) NewRecorder { token := "bogusbogie123" }
        { users := sampleUsers }).2.users = sampleUsers :=
  have h := verify_unknown_token (sampleEnv fun k => k) { token := "bogusbogie123" }
    { users := sampleUsers } (by decide) rfl (by decide)
  ⟨h.1, h.2.2.1⟩

/-! ## GetRandomBase62 and the clock -/

theorem fillBase62_prefix (env : Env) (seed : Int) (m : Nat) :
    ∀ (n i : Nat) (cm cn : List Char), m ≤ n → fillBase62 env seed i m = some cm →
      fillBase62 env seed i n = some cn → cm <+: cn := by
  induction m with
  | zero =>
    intro n i cm cn _ hm _
    simp only [fillBase62, Option.some.injEq] at hm
    subst hm
    exact List.nil_prefix
  | succ m ih =>
    intro n i cm cn hmn hm hn
    cases n with
    | zero => omega
    | succ n =>
      obtain ⟨cs, hcs, -, -⟩ := fillBase62_some env seed m (i + 1)
      obtain ⟨ds, hds, -, -⟩ := fillBase62_some env seed n (i + 1)
      have hp := ih n (i + 1) cs ds (by omega) hcs hds
      simp only [fillBase62, hcs, hds, List.get?_eq_getElem?] at hm hn
      cases hI : Intn env seed i base62.length with
      | none => simp [hI] at hm
      | some j =>
        cases hg : base62.data[j]? with
        | none => simp [hI, hg] at hm
        | some c =>
          simp only [hI, hg, Option.some.injEq] at hm hn
          subst hm hn
          exact List.prefix_cons_inj c |>.mpr hp

/-- C16. `GetRandomBase62` seeds the generator with the Unix second of the clock
reading it takes at every call, so its result depends on the length and on that
second only: two calls with the same length whose clock readings fall in the same
Unix second return the identical string, and for lengths 0 <= m <= n in the same
second the shorter result is a prefix of the longer one. -/
theorem GetRandomBase62_same_second (env : Env) (s s1 : World) (m n : Int)
    (hm : 0 ≤ m) (hmn : m ≤ n)
    (hsec : (env.now s.ticks).Unix = (env.now s1.ticks).Unix) :
    (GetRandomBase62 env n s).1 = (GetRandomBase62 env n s1).1 ∧
      (GetRandomBase62 env n s).1 =
        (if n < 0 then none
         else (fillBase62 env (env.now s.ticks).Unix 0 n.toNat).map String.mk) ∧
      ∃ tm tn, (GetRandomBase62 env m s).1 = some tm ∧
        (GetRandomBase62 env n s1).1 = some tn ∧ tm.data <+: tn.data := by
  refine ⟨?_, ?_, ?_⟩
  · simp only [GetRandomBase62, Now, hsec]
    split <;> rfl
  · simp only [GetRandomBase62, Now]
    split <;> rfl
  · obtain ⟨cm, hcm, -, -⟩ := fillBase62_some env (env.now s.ticks).Unix m.toNat 0
    obtain ⟨cn, hcn, -, -⟩ := fillBase62_some env (env.now s.ticks).Unix n.toNat 0
    refine ⟨String.mk cm, String.mk cn, ?_, ?_, ?_⟩
    · simp [GetRandomBase62, Now, not_lt.mpr hm, hcm]
    · simp [GetRandomBase62, Now, not_lt.mpr (le_trans hm hmn), ← hsec, hcn]
    · exact fillBase62_prefix env _ m.toNat n.toNat 0 cm cn
        (Int.toNat_le_toNat hmn) hcm hcn

theorem GetRandomBase62_same_second_witness :
    (GetRandomBase62 (sampleEnv fun k => k) 6 {}).1 =
        (GetRandomBase62 (sampleEnv fun k => k) 6 { ticks := 7 }).1 ∧
      ∃ tm tn, (GetRandomBase62 (sampleEnv fun k => k) 3 {}).1 = some tm ∧
        (GetRandomBase62 (sampleEnv fun k => k) 6 { ticks := 7 }).1 = some tn ∧
        tm.data <+: tn.data :=
  have h := GetRandomBase62_same_second (sampleEnv fun k => k) {} { ticks := 7 } 3 6
    (by decide) (by decide) (by decide)
  ⟨(GetRandomBase62_same_second (sampleEnv fun k => k) {} { ticks := 7 } 6 6
    (by decide) (by decide) (by decide)).1, h.2.2⟩

/-- C17. For every length n >= 0, every clock and every random source, each index
drawn by `GetRandomBase62(n)` lies in [0, 62), the length of the alphabet, so
indexing the alphabet with it succeeds, and the call returns a string without
panic; `GetRandomBase62(0)` returns the empty string. -/
theorem GetRandomBase62_index_in_range (env : Env) (s : World) (n : Int) (hn : 0 ≤ n) :
    (∀ seed i, ∃ j c, Intn env seed i base62.length = some j ∧ j < 62 ∧
        j < base62.length ∧ base62.data.get? j = some c) ∧
      (∃ tok, (GetRandomBase62 env n s).1 = some tok) ∧
      (GetRandomBase62 env 0 s).1 = some "" := by
  refine ⟨?_, ?_, ?_⟩
  · intro seed i
    have hlt : env.rng seed i % 62 < base62.data.length := by
      have : base62.data.length = 62 := base62_length
      rw [this]; exact Nat.mod_lt _ (by decide)
    refine ⟨env.rng seed i % 62, base62.data[env.rng seed i % 62], ?_,
      Nat.mod_lt _ (by decide), hlt, ?_⟩
    · simp [Intn, base62_length]
    · simp [List.get?_eq_getElem?, List.getElem?_eq_getElem hlt]
  · obtain ⟨tok, h, -, -⟩ := GetRandomBase62_some env n hn s
    exact ⟨tok, by rw [h]⟩
  · simp [GetRandomBase62, Now, fillBase62]

theorem GetRandomBase62_index_in_range_witness :
    (∃ tok, (GetRandomBase62 (sampleEnv fun k => k) 6 {}).1 = some tok) ∧
      (GetRandomBase62 (sampleEnv fun k => k) 0 {}).1 = some "" :=
  (GetRandomBase62_index_in_range (sampleEnv fun k => k) {} 6 (by decide)).2

/-! ## Failure responses -/

theorem failsAt_response (h : Handler) (step : Step) (env : Env) (r : Request) (s : World)
    (e : String) (hf : failsAt h step env r s e) :
    ((Result (h.run env r s).1).StatusCode, (Result (h.run env r s).1).Body) =
      failureResponse h step := by
  cases h <;> cases step <;> simp only [failsAt] at hf <;>
    simp only [Handler.run, failureResponse]
  · obtain ⟨cr, hc, hh⟩ := hf
    rw [signup_hash_failed env NewRecorder r s cr e hc hh, Result_Error _ _ _ rfl]
    rfl
  · obtain ⟨cr, uid, vt, s1, hc, hh, hs, ha⟩ := hf
    obtain ⟨-, hrun⟩ := signup_stored_run env r s cr uid vt s1 hc hh hs
    rcases hrun with ⟨e1, -, -, -, -, hr⟩ | ⟨ha1, -⟩
    · rw [hr]
    · rw [ha1] at ha; cases ha
  · obtain ⟨cr, uid, vt, s1, hc, hh, hs, ha, hb⟩ := hf
    obtain ⟨-, hrun⟩ := signup_stored_run env r s cr uid vt s1 hc hh hs
    rcases hrun with ⟨e1, ha1, -⟩ | ⟨-, -, ⟨e1, -, -, -, hr⟩ | ⟨hb1, -⟩⟩
    · rw [ha1] at ha; cases ha
    · rw [hr]
    · rw [hb1] at hb; cases hb
  · obtain ⟨cr, uid, vt, s1, hc, hh, hs, ha, hb, hm⟩ := hf
    obtain ⟨-, hrun⟩ := signup_stored_run env r s cr uid vt s1 hc hh hs
    rcases hrun with ⟨e1, ha1, -⟩ | ⟨-, -, ⟨e1, hb1, -⟩ | ⟨-, -, -, ⟨e1, -, hr⟩ | ⟨hm1, -⟩⟩⟩
    · rw [ha1] at ha; cases ha
    · rw [hb1] at hb; cases hb
    · rw [hr]
    · rw [hm1] at hm; cases hm
  · obtain ⟨cr, hp, uid, hl, hc, -, hb⟩ := hf
    obtain ⟨-, -, -, -, hrun⟩ := signin_issue_run env r s cr hp uid hl hc
    rcases hrun with ⟨e1, hb1, -⟩ | ⟨-, -, hr⟩
    · rw [hb1] at hb; cases hb
    · rw [hr]
  · obtain ⟨cr, hp, uid, hl, hc, hb⟩ := hf
    obtain ⟨-, -, -, -, hrun⟩ := signin_issue_run env r s cr hp uid hl hc
    rcases hrun with ⟨e1, -, -, hr⟩ | ⟨hb1, -⟩
    · rw [hr]
    · rw [hb1] at hb; cases hb
  · obtain ⟨cr, hc, hh⟩ := hf
    have hrun : resetPassword env NewRecorder r s =
        (Error NewRecorder "password preparation failed" StatusInternalServerError,
          logPrint e s) := by
      unfold resetPassword; rw [hc]; simp only [hh]
    rw [hrun, Result_Error _ _ _ rfl]
    rfl

/-- C13. For any two runs of the same handler among signup, signin and
resetPassword, on fresh responses, that fail at the same internal step (hashing,
signing the access token, signing the refresh token, mail dispatch), whatever the
two underlying errors, the collaborators, the requests and the worlds: the
response status and the response body of the two runs are identical, and they are
the fixed status and message of that handler and step, which do not depend on the
error. -/
theorem failure_response_independent_of_error (h : Handler) (step : Step)
    (env1 env2 : Env) (r1 r2 : Request) (s1 s2 : World) (e1 e2 : String)
    (h1 : failsAt h step env1 r1 s1 e1) (h2 : failsAt h step env2 r2 s2 e2) :
    (Result (h.run env1 r1 s1).1).StatusCode = (Result (h.run env2 r2 s2).1).StatusCode ∧
      (Result (h.run env1 r1 s1).1).Body = (Result (h.run env2 r2 s2).1).Body ∧
      (Result (h.run env1 r1 s1).1).StatusCode = (failureResponse h step).1 ∧
      (Result (h.run env1 r1 s1).1).Body = (failureResponse h step).2 := by
  have k1 := failsAt_response h step env1 r1 s1 e1 h1
  have k2 := failsAt_response h step env2 r2 s2 e2 h2
  rw [← k2] at k1
  have k3 := failsAt_response h step env1 r1 s1 e1 h1
  exact ⟨congrArg Prod.fst k1, congrArg Prod.snd k1, congrArg Prod.fst k3,
    congrArg Prod.snd k3⟩

theorem failure_response_independent_of_error_witness :
    (Result (signup (hashFailEnv "bcrypt: password too long") NewRecorder
        { body := some testCreds } {}).1).StatusCode =
      (Result (signup (hashFailEnv "crypto/rand: no entropy") NewRecorder
        { body := some testCreds } {}).1).StatusCode ∧
    (Result (signup (hashFailEnv "bcrypt: password too long") NewRecorder
        { body := some testCreds } {}).1).Body =
      (Result (signup (hashFailEnv "crypto/rand: no entropy") NewRecorder
        { body := some testCreds } {}).1).Body ∧
    (Result (signup (hashFailEnv "bcrypt: password too long") NewRecorder
        { body := some testCreds } {}).1).Body = "error preparing password for storage\n" :=
  have h := failure_response_independent_of_error Handler.signup Step.hashing
    (hashFailEnv "bcrypt: password too long") (hashFailEnv "crypto/rand: no entropy")
    { body := some testCreds } { body := some testCreds } {} {}
    "bcrypt: password too long" "crypto/rand: no entropy"
    ⟨testCreds, rfl, rfl⟩ ⟨testCreds, rfl, rfl⟩
  ⟨h.1, h.2.1, h.2.2.2⟩

end BearChat
